import Mathlib

/-!
Shallow embedding of the `bible-data` crate: the canonical book table,
the hand-written book-abbreviation recognizer (`src/lib.rs`), the
`BibleBook` identity type (`src/structs/book.rs`) and the layered
chapter / verse / range parsers (`src/structs/*.rs`), together with
proofs of the specified properties.

Strings are embedded as `List Char` (the crate walks `str::chars()`),
`u8` values as `Nat` bounded by 255 at parse time, and fallible
functions as `Option` / `Except`.
-/

namespace BibleData

/-- The 66 canonical book names (`BOOK_NAMES` in `src/lib.rs`). -/
def BOOK_NAMES : List String := [
  "Genesis", "Exodus", "Leviticus", "Numbers", "Duteronomy", "Joshua",
  "Judges", "Ruth", "1 Samuel", "2 Samuel", "1 Kings", "2 Kings",
  "1 Chronicles", "2 Chronicles", "Ezra", "Nehemiah", "Esther", "Job",
  "Psalms", "Proverbs", "Eccesiastes", "Song of Songs", "Isaiah",
  "Jeremiah", "Lamentations", "Ezekiel", "Daniel", "Hosea", "Joel",
  "Amos", "Obadiah", "Jonah", "Micah", "Nahum", "Habakkuk", "Zephaniah",
  "Haggai", "Zechariah", "Malachi", "Matthew", "Mark", "Luke", "John",
  "Acts", "Romans", "1 Corinthians", "2 Corinthians", "Galatians",
  "Ephesians", "Philippians", "Colossians", "1 Thessalonians",
  "2 Thessalonians", "1 Timothy", "2 Timothy", "Titus", "Philemon",
  "Hebrews", "James", "1 Peter", "2 Peter", "1 John", "2 John",
  "3 John", "Jude", "Revelation"]

/-- The 66 canonical abbreviations (`BOOK_ABBREVS` in `src/lib.rs`). -/
def BOOK_ABBREVS : List String := [
  "Ge", "Ex", "Lev", "Nu", "Dt", "Jos", "Jdg", "Ru", "1Sa", "2Sa",
  "1Ki", "2Ki", "1Ch", "2Ch", "Ezr", "Ne", "Est", "Job", "Ps", "Pr",
  "Ecc", "SS", "Isa", "Jer", "La", "Eze", "Da", "Hos", "Joel", "Am",
  "Ob", "Jnh", "Mic", "Na", "Hab", "Zep", "Hag", "Zec", "Mal", "Mt",
  "Mk", "Lk", "Jn", "Ac", "Ro", "1Co", "2Co", "Gal", "Eph", "Php",
  "Col", "1Th", "2Th", "1Ti", "2Ti", "Tit", "Phm", "Heb", "Jas",
  "1Pe", "2Pe", "1Jn", "2Jn", "3Jn", "Jude", "Rev"]

/-- Modelled from the spec: the per-book chapter-count table
`BOOK_CHAPTERS` is referenced by `src/structs/book.rs` but its
definition is not among the provided source files.  The values are the
standard canonical chapter counts; they agree with everything the spec
and the in-repo tests pin down (Genesis 50, Daniel 12, Revelation 22,
Ephesians 6, and exactly the five single-chapter books Obadiah,
Philemon, 2 John, 3 John, Jude). -/
def BOOK_CHAPTERS : List Nat := [
  50, 40, 27, 36, 34, 24, 21, 4, 31, 24, 22, 25, 29, 36, 10, 13, 10,
  42, 150, 31, 12, 8, 66, 52, 5, 48, 12, 14, 3, 9, 1, 4, 7, 3, 3, 3,
  2, 14, 4, 28, 16, 24, 21, 28, 16, 16, 13, 6, 6, 4, 4, 5, 3, 6, 4,
  3, 1, 13, 5, 5, 3, 5, 1, 1, 1, 22]

/-- One-argument arm of the `some_at_end!` macro in `src/lib.rs`: the
match is accepted exactly when the next character is a space or the
input is exhausted. -/
def someAtEnd (cs : List Char) (v : Nat) : Option Nat :=
  match cs with
  | [] => some v
  | c :: _ => if c = ' ' then some v else none

/-- Two-argument arm of the `some_at_end!` macro: an optional extra
character may also be consumed, but the recursive expansion is
`some_at_end!(chars, 0)` — it yields the literal value `0`, not the
value passed by the caller.  This is embedded exactly as written. -/
def someAtEnd2 (cs : List Char) (v : Nat) (opt : Char) : Option Nat :=
  match cs with
  | [] => some v
  | c :: rest =>
      if c = ' ' then some v
      else if c = opt then someAtEnd rest 0
      else none

/-- Arm of `parse_book_abbrev` for a leading `'M'`. -/
def parseAbbrevM (r0 : List Char) : Option Nat :=
  match r0 with
  | [] => none
  | c1 :: r1 =>
    if c1 = 't' then someAtEnd r1 39
    else if c1 = 'k' then someAtEnd r1 40
    else if c1 = 'a' then
      match r1 with
      | [] => none
      | c2 :: r2 => if c2 = 'l' then someAtEnd r2 38 else none
    else if c1 = 'i' then
      match r1 with
      | [] => none
      | c2 :: r2 => if c2 = 'c' then someAtEnd r2 32 else none
    else none

/-- Arm of `parse_book_abbrev` for a leading `'L'`. -/
def parseAbbrevL (r0 : List Char) : Option Nat :=
  match r0 with
  | [] => none
  | c1 :: r1 =>
    if c1 = 'k' then someAtEnd r1 41
    else if c1 = 'e' then
      match r1 with
      | [] => none
      | c2 :: r2 => if c2 = 'v' then someAtEnd r2 2 else none
    else if c1 = 'a' then someAtEnd2 r1 24 'm'
    else none

/-- Arm of `parse_book_abbrev` for a leading `'J'`. -/
def parseAbbrevJ (r0 : List Char) : Option Nat :=
  match r0 with
  | [] => none
  | c1 :: r1 =>
    if c1 = 'n' then
      match r1 with
      | [] => some 42
      | c2 :: r2 =>
          if c2 = ' ' then some 42
          else if c2 = 'h' then someAtEnd r2 31
          else none
    else if c1 = 'a' then
      match r1 with
      | [] => none
      | c2 :: r2 => if c2 = 's' then someAtEnd r2 58 else none
    else if c1 = 'o' then
      match r1 with
      | [] => none
      | c2 :: r2 =>
        if c2 = 's' then someAtEnd r2 5
        else if c2 = 'b' then someAtEnd r2 17
        else if c2 = 'e' then
          match r2 with
          | [] => none
          | c3 :: r3 => if c3 = 'l' then someAtEnd r3 28 else none
        else none
    else if c1 = 'd' then
      match r1 with
      | [] => none
      | c2 :: r2 => if c2 = 'g' then someAtEnd r2 6 else none
    else if c1 = 'e' then
      match r1 with
      | [] => none
      | c2 :: r2 => if c2 = 'r' then someAtEnd r2 23 else none
    else if c1 = 'u' then
      match r1 with
      | [] => none
      | c2 :: r2 =>
        if c2 = 'd' then
          match r2 with
          | [] => none
          | c3 :: r3 => if c3 = 'e' then someAtEnd r3 64 else none
        else none
    else none

/-- Arm of `parse_book_abbrev` for a leading `'E'`. -/
def parseAbbrevE (r0 : List Char) : Option Nat :=
  match r0 with
  | [] => none
  | c1 :: r1 =>
    if c1 = 'p' then
      match r1 with
      | [] => none
      | c2 :: r2 => if c2 = 'h' then someAtEnd r2 48 else none
    else if c1 = 'x' then someAtEnd r1 1
    else if c1 = 'z' then
      match r1 with
      | [] => none
      | c2 :: r2 =>
        if c2 = 'r' then someAtEnd r2 14
        else if c2 = 'e' then someAtEnd r2 25
        else none
    else if c1 = 's' then
      match r1 with
      | [] => none
      | c2 :: r2 => if c2 = 't' then someAtEnd r2 16 else none
    else if c1 = 'c' then
      match r1 with
      | [] => none
      | c2 :: r2 => if c2 = 'c' then someAtEnd r2 20 else none
    else none

/-- Arm of `parse_book_abbrev` for a leading `'G'`. -/
def parseAbbrevG (r0 : List Char) : Option Nat :=
  match r0 with
  | [] => none
  | c1 :: r1 =>
    if c1 = 'e' then someAtEnd2 r1 0 'n'
    else if c1 = 'a' then
      match r1 with
      | [] => none
      | c2 :: r2 => if c2 = 'l' then someAtEnd r2 47 else none
    else none

/-- Arm of `parse_book_abbrev` for a leading `'P'`. -/
def parseAbbrevP (r0 : List Char) : Option Nat :=
  match r0 with
  | [] => none
  | c1 :: r1 =>
    if c1 = 's' then someAtEnd r1 18
    else if c1 = 'r' then someAtEnd r1 19
    else if c1 = 'h' then
      match r1 with
      | [] => none
      | c2 :: r2 =>
        if c2 = 'p' then someAtEnd r2 49
        else if c2 = 'm' then someAtEnd r2 56
        else none
    else none

/-- Arm of `parse_book_abbrev` for a leading `'C'`. -/
def parseAbbrevC (r0 : List Char) : Option Nat :=
  match r0 with
  | [] => none
  | c1 :: r1 =>
    if c1 = 'o' then
      match r1 with
      | [] => none
      | c2 :: r2 => if c2 = 'l' then someAtEnd r2 50 else none
    else none

/-- Arm of `parse_book_abbrev` for a leading `'R'`. -/
def parseAbbrevR (r0 : List Char) : Option Nat :=
  match r0 with
  | [] => none
  | c1 :: r1 =>
    if c1 = 'o' then someAtEnd r1 44
    else if c1 = 'e' then
      match r1 with
      | [] => none
      | c2 :: r2 => if c2 = 'v' then someAtEnd r2 65 else none
    else if c1 = 'u' then someAtEnd r1 7
    else none

/-- Arm of `parse_book_abbrev` for a leading `'H'`. -/
def parseAbbrevH (r0 : List Char) : Option Nat :=
  match r0 with
  | [] => none
  | c1 :: r1 =>
    if c1 = 'e' then
      match r1 with
      | [] => none
      | c2 :: r2 => if c2 = 'b' then someAtEnd r2 57 else none
    else if c1 = 'a' then
      match r1 with
      | [] => none
      | c2 :: r2 =>
        if c2 = 'b' then someAtEnd r2 34
        else if c2 = 'g' then someAtEnd r2 36
        else none
    else if c1 = 'o' then
      match r1 with
      | [] => none
      | c2 :: r2 => if c2 = 's' then someAtEnd r2 27 else none
    else none

/-- Arm of `parse_book_abbrev` for a leading `'N'`. -/
def parseAbbrevN (r0 : List Char) : Option Nat :=
  match r0 with
  | [] => none
  | c1 :: r1 =>
    if c1 = 'u' then someAtEnd2 r1 3 'm'
    else if c1 = 'e' then someAtEnd r1 15
    else if c1 = 'a' then someAtEnd r1 33
    else none

/-- Arm of `parse_book_abbrev` for a leading `'D'`. -/
def parseAbbrevD (r0 : List Char) : Option Nat :=
  match r0 with
  | [] => none
  | c1 :: r1 =>
    if c1 = 'a' then someAtEnd2 r1 26 'n'
    else if c1 = 't' then someAtEnd r1 4
    else none

/-- Arm of `parse_book_abbrev` for a leading `'1'`. -/
def parseAbbrevOne (r0 : List Char) : Option Nat :=
  match r0 with
  | [] => none
  | c1 :: r1 =>
    if c1 = 'S' then
      match r1 with
      | [] => none
      | c2 :: r2 => if c2 = 'a' then someAtEnd r2 8 else none
    else if c1 = 'K' then
      match r1 with
      | [] => none
      | c2 :: r2 => if c2 = 'i' then someAtEnd r2 10 else none
    else if c1 = 'C' then
      match r1 with
      | [] => none
      | c2 :: r2 =>
        if c2 = 'h' then someAtEnd r2 12
        else if c2 = 'o' then someAtEnd r2 45
        else none
    else if c1 = 'T' then
      match r1 with
      | [] => none
      | c2 :: r2 =>
        if c2 = 'h' then someAtEnd r2 51
        else if c2 = 'i' then someAtEnd r2 53
        else none
    else if c1 = 'P' then
      match r1 with
      | [] => none
      | c2 :: r2 => if c2 = 'e' then someAtEnd r2 59 else none
    else if c1 = 'J' then
      match r1 with
      | [] => none
      | c2 :: r2 => if c2 = 'n' then someAtEnd r2 61 else none
    else none

/-- Arm of `parse_book_abbrev` for a leading `'2'`. -/
def parseAbbrevTwo (r0 : List Char) : Option Nat :=
  match r0 with
  | [] => none
  | c1 :: r1 =>
    if c1 = 'S' then
      match r1 with
      | [] => none
      | c2 :: r2 => if c2 = 'a' then someAtEnd r2 9 else none
    else if c1 = 'K' then
      match r1 with
      | [] => none
      | c2 :: r2 => if c2 = 'i' then someAtEnd r2 11 else none
    else if c1 = 'C' then
      match r1 with
      | [] => none
      | c2 :: r2 =>
        if c2 = 'h' then someAtEnd r2 13
        else if c2 = 'o' then someAtEnd r2 46
        else none
    else if c1 = 'T' then
      match r1 with
      | [] => none
      | c2 :: r2 =>
        if c2 = 'h' then someAtEnd r2 52
        else if c2 = 'i' then someAtEnd r2 54
        else none
    else if c1 = 'P' then
      match r1 with
      | [] => none
      | c2 :: r2 => if c2 = 'e' then someAtEnd r2 60 else none
    else if c1 = 'J' then
      match r1 with
      | [] => none
      | c2 :: r2 => if c2 = 'n' then someAtEnd r2 62 else none
    else none

/-- Arm of `parse_book_abbrev` for a leading `'I'`. -/
def parseAbbrevI (r0 : List Char) : Option Nat :=
  match r0 with
  | [] => none
  | c1 :: r1 =>
    if c1 = 's' then
      match r1 with
      | [] => none
      | c2 :: r2 => if c2 = 'a' then someAtEnd r2 22 else none
    else none

/-- Arm of `parse_book_abbrev` for a leading `'A'`. -/
def parseAbbrevA (r0 : List Char) : Option Nat :=
  match r0 with
  | [] => none
  | c1 :: r1 =>
    if c1 = 'c' then someAtEnd r1 43
    else if c1 = 'm' then someAtEnd r1 29
    else none

/-- Arm of `parse_book_abbrev` for a leading `'Z'`. -/
def parseAbbrevZ (r0 : List Char) : Option Nat :=
  match r0 with
  | [] => none
  | c1 :: r1 =>
    if c1 = 'e' then
      match r1 with
      | [] => none
      | c2 :: r2 =>
        if c2 = 'c' then someAtEnd r2 37
        else if c2 = 'p' then someAtEnd r2 35
        else none
    else none

/-- Arm of `parse_book_abbrev` for a leading `'T'`. -/
def parseAbbrevT (r0 : List Char) : Option Nat :=
  match r0 with
  | [] => none
  | c1 :: r1 =>
    if c1 = 'i' then
      match r1 with
      | [] => none
      | c2 :: r2 => if c2 = 't' then someAtEnd r2 55 else none
    else none

/-- Arm of `parse_book_abbrev` for a leading `'3'`. -/
def parseAbbrevThree (r0 : List Char) : Option Nat :=
  match r0 with
  | [] => none
  | c1 :: r1 =>
    if c1 = 'J' then
      match r1 with
      | [] => none
      | c2 :: r2 => if c2 = 'n' then someAtEnd r2 63 else none
    else none

/-- Arm of `parse_book_abbrev` for a leading `'S'`. -/
def parseAbbrevS (r0 : List Char) : Option Nat :=
  match r0 with
  | [] => none
  | c1 :: r1 =>
    if c1 = 'S' then someAtEnd r1 21
    else if c1 = 'o' then someAtEnd2 r1 21 'S'
    else none

/-- Arm of `parse_book_abbrev` for a leading `'O'`. -/
def parseAbbrevO (r0 : List Char) : Option Nat :=
  match r0 with
  | [] => none
  | c1 :: r1 =>
    if c1 = 'b' then someAtEnd r1 30
    else none

/-- The hand-written decision tree `parse_book_abbrev` of `src/lib.rs`:
returns the 0-based table index of the matched abbreviation, provided
the match is followed by a space or the end of input.  The nested
match of the Rust source is embedded one helper function per arm of
the outer (first-character) match. -/
def parseBookAbbrev (cs : List Char) : Option Nat :=
  match cs with
  | [] => none
  | c0 :: r0 =>
    if c0 = 'M' then parseAbbrevM r0
    else if c0 = 'L' then parseAbbrevL r0
    else if c0 = 'J' then parseAbbrevJ r0
    else if c0 = 'E' then parseAbbrevE r0
    else if c0 = 'G' then parseAbbrevG r0
    else if c0 = 'P' then parseAbbrevP r0
    else if c0 = 'C' then parseAbbrevC r0
    else if c0 = 'R' then parseAbbrevR r0
    else if c0 = 'H' then parseAbbrevH r0
    else if c0 = 'N' then parseAbbrevN r0
    else if c0 = 'D' then parseAbbrevD r0
    else if c0 = '1' then parseAbbrevOne r0
    else if c0 = '2' then parseAbbrevTwo r0
    else if c0 = 'I' then parseAbbrevI r0
    else if c0 = 'A' then parseAbbrevA r0
    else if c0 = 'Z' then parseAbbrevZ r0
    else if c0 = 'T' then parseAbbrevT r0
    else if c0 = '3' then parseAbbrevThree r0
    else if c0 = 'S' then parseAbbrevS r0
    else if c0 = 'O' then parseAbbrevO r0
    else none
example : parseBookAbbrev "Ge".data = some 0 := by decide
example : parseBookAbbrev "Ge ".data = some 0 := by decide
example : parseBookAbbrev "Geq".data = none := by decide
example : parseBookAbbrev "Jn".data = some 42 := by decide
example : parseBookAbbrev "Jnh".data = some 31 := by decide
example : parseBookAbbrev "SS".data = some 21 := by decide
example : parseBookAbbrev "SoS".data = some 0 := by decide
example : parseBookAbbrev "Jude".data = some 64 := by decide
example : parseBookAbbrev "Hello World!".data = none := by decide

/-- The `BibleBook` enum of `src/structs/book.rs`: a closed 66-value
type with `repr(u8)` discriminants `1..=66`.  It is embedded as its
0-based table index, a `Fin 66`; the discriminant is recovered by
`bookNumber`. -/
abbrev BibleBook := Fin 66

/-- `BibleBook::book_number`: the 1-based book number (discriminant). -/
def bookNumber (b : BibleBook) : Nat := b.val + 1

/-- `BibleBook::index`: the 0-based table index (`book_number - 1`). -/
def bookIndex (b : BibleBook) : Nat := bookNumber b - 1

/-- `BibleBook::name`: lookup in `BOOK_NAMES` by index. -/
def bookName (b : BibleBook) : String := BOOK_NAMES.getD (bookIndex b) ""

/-- `BibleBook::abbrev`: lookup in `BOOK_ABBREVS` by index. -/
def bookAbbrev (b : BibleBook) : String := BOOK_ABBREVS.getD (bookIndex b) ""

/-- `BibleBook::number_of_chapters`: lookup in `BOOK_CHAPTERS` by index. -/
def numberOfChapters (b : BibleBook) : Nat := BOOK_CHAPTERS.getD (bookIndex b) 0

/-- The `OutOfRangeError` of `src/structs/book.rs` (a message wrapper). -/
structure OutOfRangeError where
  message : String
deriving DecidableEq

/-- `BibleBook::from_book_number`.  The `ok` branch embeds the
`transmute::<u8, BibleBook>` that the Rust code performs after checking
`1..=66`: constructing the `Fin 66` value `number - 1` requires exactly
that range check. -/
def bibleBookFromBookNumber (number : Nat) : Except OutOfRangeError BibleBook :=
  if number = 0 then
    .error ⟨"Zero used. Book numbers start from 1. Did you mean to use from_index()?"⟩
  else if h : number ≤ 66 then
    .ok ⟨number - 1, by omega⟩
  else
    .error ⟨Nat.repr number ++ ". book_number should be in range 1..=66"⟩

/-- `BibleBook::from_index`. -/
def bibleBookFromIndex (index : Nat) : Except OutOfRangeError BibleBook :=
  if index = 66 then
    .error ⟨"66 used. Highest value of index is 65. Did you mean to use from_book_number()?"⟩
  else if 67 ≤ index then
    .error ⟨Nat.repr index ++ ". index should be in range 0..66"⟩
  else
    bibleBookFromBookNumber (index + 1)

/-- `BibleBook::parse_abbrev`: delegate to the recognizer, then map the
index through `from_index`, discarding the error (`.ok()`). -/
def bibleBookParseAbbrev (s : List Char) : Option BibleBook :=
  match parseBookAbbrev s with
  | none => none
  | some index => (bibleBookFromIndex index).toOption

/-- `BibleBook::parse_name`: exact match against the name table. -/
def bibleBookParseName (s : List Char) : Option BibleBook :=
  match BOOK_NAMES.enum.find? (fun item => item.2.data = s) with
  | none => none
  | some item => (bibleBookFromIndex item.1).toOption

/-- `BibleBook::parse`: abbreviation first, then full name. -/
def bibleBookParse (s : List Char) : Option BibleBook :=
  match bibleBookParseAbbrev s with
  | some b => some b
  | none => bibleBookParseName s

/-- `BibleBook::iter`: all 66 books in canonical order.  The
`.unwrap()` on `from_book_number` is embedded with a default value for
the (unreachable) error branch. -/
def bibleBookIter : List BibleBook :=
  (List.range 66).map (fun n =>
    match bibleBookFromBookNumber (n + 1) with
    | .ok b => b
    | .error _ => ⟨0, by omega⟩)

/-- `BibleBook::is_new_testament`: book numbers 40..=66. -/
def isNewTestament (b : BibleBook) : Bool :=
  40 ≤ bookNumber b && bookNumber b ≤ 66

/-- `BibleBook::is_old_testament`: book numbers 1..=39. -/
def isOldTestament (b : BibleBook) : Bool :=
  1 ≤ bookNumber b && bookNumber b ≤ 39

example : bibleBookParseAbbrev "Ge".data = some ⟨0, by omega⟩ := by decide
example : bibleBookParseName "Genesis".data = some ⟨0, by omega⟩ := by decide
example : bibleBookParse "Rev".data = some ⟨65, by omega⟩ := by decide
example : numberOfChapters ⟨0, by omega⟩ = 50 := by decide
example : numberOfChapters ⟨62, by omega⟩ = 1 := by decide

/-- The `ChapterAndVerse` struct of `src/structs/chapterandverse.rs`:
a chapter number and a verse number (both `u8` in Rust, embedded as
`Nat`; the parser only ever produces values `≤ 255`). -/
structure ChapterAndVerse where
  chapter : Nat
  verse : Nat
deriving DecidableEq

/-- `Ord for ChapterAndVerse`: chapter-major, verse-minor. -/
def cvCmp (a b : ChapterAndVerse) : Ordering :=
  match compare a.chapter b.chapter with
  | .gt => .gt
  | .lt => .lt
  | .eq => compare a.verse b.verse

/-- `a <= b` in the derived order (what `RangeInclusive::is_empty`
negates). -/
def cvLe (a b : ChapterAndVerse) : Prop := cvCmp a b ≠ .gt

instance : DecidablePred fun p : ChapterAndVerse × ChapterAndVerse => cvLe p.1 p.2 :=
  fun _ => by unfold cvLe; infer_instance

instance (a b : ChapterAndVerse) : Decidable (cvLe a b) := by
  unfold cvLe; infer_instance

/-- The `ChapterAndVerseRange` newtype of
`src/structs/chapterandverserange.rs`, a
`RangeInclusive<ChapterAndVerse>` embedded as its two endpoints. -/
structure ChapterAndVerseRange where
  rstart : ChapterAndVerse
  rend : ChapterAndVerse
deriving DecidableEq

/-- `RangeInclusive::is_empty`: the range is empty iff not
`start <= end`. -/
def rangeIsEmpty (r : ChapterAndVerseRange) : Bool :=
  cvCmp r.rstart r.rend == .gt

/-- The `FullOrImplicitRange` enum of
`src/structs/chapterandverserange.rs`. -/
inductive FullOrImplicitRange where
  | full (r : ChapterAndVerseRange)
  | implicit (r : ChapterAndVerseRange)
deriving DecidableEq

/-- The tagged failure reasons of `src/structs/errors.rs`, flattened
into a single inductive.  The Rust code uses one message-wrapping
struct per kind plus per-layer composite enums (`ParseChapterError`,
`ParseChapterVeseError`, `ParseChapterVeseRangeError`, and the
`ParseError` / `InvalidRange` kinds referenced by
`src/structs/verse.rs` and `src/structs/verserange.rs` whose
definitions are not among the provided sources — those two are
modelled from the spec's error taxonomy, sections 4.5 and 7).  The
`inner_into` conversions between the composites are lossless variant
re-tags, so the flattening preserves every distinction the code
makes. -/
inductive ParseErr where
  | noSuchBookError (msg : String)
  | noChapterSpecified (msg : String)
  | notANumber (msg : String)
  | chapterOutOfRange (msg : String)
  | invalidFormat (msg : String)
  | implicitRange (data : ChapterAndVerseRange)
  | invalidRange (msg : String)
deriving DecidableEq

deriving instance DecidableEq for Except

/-- Digit-accumulation loop of `u8::from_str` (via `from_str_radix`):
consume decimal digits, failing on a non-digit character or when the
accumulated value leaves the `u8` range. -/
def parseDigits : List Char → Nat → Option Nat
  | [], acc => some acc
  | c :: rest, acc =>
      if c.isDigit then
        let v := acc * 10 + (c.toNat - 48)
        if v ≤ 255 then parseDigits rest v else none
      else none

/-- `u8::from_str`: an optional leading `'+'` (a `'-'` is not stripped
for unsigned types and fails as a non-digit), then a non-empty digit
string whose value fits in `u8`. -/
def u8FromStr (s : List Char) : Option Nat :=
  match s with
  | '+' :: rest => if rest = [] then none else parseDigits rest 0
  | [] => none
  | _ => parseDigits s 0

/-- `str::find` for a single pattern character combined with the
`&s[..pos]` / `&s[pos + 1..]` slicing the crate always performs on the
result: split at the first occurrence of `c`. -/
def splitOnFirst (c : Char) : List Char → Option (List Char × List Char)
  | [] => none
  | x :: rest =>
      if x = c then some ([], rest)
      else
        match splitOnFirst c rest with
        | none => none
        | some (a, b) => some (x :: a, b)

/-- Modelled from the spec: `ChapterAndVerse::from_str` is called by
`src/structs/chapterandverseorverse.rs` but its definition is not
among the provided sources (the file only has the `Option`-returning
`ChapterAndVerse::parse`, which splits at the first `':'` and parses
both sides as `u8`).  Spec section 4.3: parse both sides as chapter
and verse integers independently; either failing parse is a distinct
not-a-number error keyed to the offending side. -/
def chapterAndVerseFromStr (s : List Char) : Except ParseErr ChapterAndVerse :=
  match splitOnFirst ':' s with
  | none => .error (.invalidFormat (String.mk s))
  | some (before, after) =>
    match u8FromStr before with
    | none => .error (.notANumber (String.mk before))
    | some chapter =>
      match u8FromStr after with
      | none => .error (.notANumber (String.mk after))
      | some verse => .ok ⟨chapter, verse⟩

/-- The `ChapterAndVerseOrVerse` enum of
`src/structs/chapterandverseorverse.rs`. -/
inductive ChapterAndVerseOrVerse where
  | both (cv : ChapterAndVerse)
  | justVerse (v : Nat)
deriving DecidableEq

/-- `ChapterAndVerseOrVerse::from_str`: no `':'` means the whole token
is a bare verse number; otherwise delegate to `ChapterAndVerse`. -/
def chapterAndVerseOrVerseFromStr (s : List Char) :
    Except ParseErr ChapterAndVerseOrVerse :=
  match splitOnFirst ':' s with
  | none =>
    match u8FromStr s with
    | some v => .ok (.justVerse v)
    | none => .error (.notANumber (String.mk s))
  | some _ => (chapterAndVerseFromStr s).map .both

/-- `ChapterAndVerseRange::from_str` of
`src/structs/chapterandverserange.rs`: split at the first `'-'`;
a missing end is a single-point range; a bare start makes the range
implicit with chapter 1 assumed; a chapter stated at the end only is
an `InvalidFormat` error; a bare end inherits the start's chapter. -/
def chapterAndVerseRangeFromStr (s : List Char) :
    Except ParseErr ChapterAndVerseRange :=
  match splitOnFirst '-' s with
  | none =>
    match chapterAndVerseOrVerseFromStr s with
    | .error e => .error e
    | .ok (.both cv) => .ok ⟨cv, cv⟩
    | .ok (.justVerse v) => .error (.implicitRange ⟨⟨1, v⟩, ⟨1, v⟩⟩)
  | some (st, en) =>
    match chapterAndVerseOrVerseFromStr st with
    | .error e => .error e
    | .ok cvvStart =>
      match chapterAndVerseOrVerseFromStr en with
      | .error e => .error e
      | .ok cvvEnd =>
        match cvvStart with
        | .both cvStart =>
          match cvvEnd with
          | .both cvEnd => .ok ⟨cvStart, cvEnd⟩
          | .justVerse v => .ok ⟨cvStart, ⟨cvStart.chapter, v⟩⟩
        | .justVerse v =>
          match cvvEnd with
          | .both _ => .error (.invalidFormat "Chapter specified at end only")
          | .justVerse v2 => .error (.implicitRange ⟨⟨1, v⟩, ⟨1, v2⟩⟩)

/-- `ChapterAndVerseRange::parse`: an `Ok` is a full range, an
`ImplicitRange` error is surfaced as an implicit range, everything
else is a failure. -/
def chapterAndVerseRangeParse (s : List Char) : Option FullOrImplicitRange :=
  match chapterAndVerseRangeFromStr s with
  | .ok cvr => some (.full cvr)
  | .error (.implicitRange data) => some (.implicit data)
  | .error _ => none

example : chapterAndVerseRangeParse "20:1-5".data
    = some (.full ⟨⟨20, 1⟩, ⟨20, 5⟩⟩) := by decide
example : chapterAndVerseRangeParse "1-5".data
    = some (.implicit ⟨⟨1, 1⟩, ⟨1, 5⟩⟩) := by decide
example : chapterAndVerseRangeParse "1-2:2".data = none := by decide
example : chapterAndVerseRangeParse "1:1-1:999".data = none := by decide
example : chapterAndVerseRangeFromStr "1:1-1:255".data
    = .ok ⟨⟨1, 1⟩, ⟨1, 255⟩⟩ := by decide
example : chapterAndVerseRangeParse "8:22-9:6".data
    = some (.full ⟨⟨8, 22⟩, ⟨9, 6⟩⟩) := by decide
example : chapterAndVerseRangeParse "4".data
    = some (.implicit ⟨⟨1, 4⟩, ⟨1, 4⟩⟩) := by decide
example : chapterAndVerseRangeParse "1:1-".data = none := by decide

/-- The `BibleChapter` struct of `src/structs/chapter.rs`. -/
structure BibleChapter where
  book : BibleBook
  chapter : Nat
deriving DecidableEq

/-- `BibleChapter::is_valid`: the chapter lies in
`1..=book.number_of_chapters()`. -/
def bibleChapterIsValid (c : BibleChapter) : Bool :=
  1 ≤ c.chapter && c.chapter ≤ numberOfChapters c.book

/-- `BibleChapter::new`: a validating constructor that yields `None`
for an out-of-range chapter. -/
def bibleChapterNew (book : BibleBook) (chapter : Nat) : Option BibleChapter :=
  let result : BibleChapter := ⟨book, chapter⟩
  if bibleChapterIsValid result then some result else none

/-- The `.expect(..)` on `from_index` inside `BibleChapter::from_str`:
the panic branch is embedded as a default book (it is unreachable, as
the recognizer only returns indices below 66). -/
def bookFromIndexD (index : Nat) : BibleBook :=
  match bibleBookFromIndex index with
  | .ok b => b
  | .error _ => ⟨0, by omega⟩

/-- `BibleChapter::from_str`: recognize the book abbreviation, then
split at the first space; without a space the chapter must be implicit
(single-chapter books only); with one, the remainder must be a `u8`
in `1..=number_of_chapters`. -/
def bibleChapterFromStr (s : List Char) : Except ParseErr BibleChapter :=
  match parseBookAbbrev s with
  | none =>
      .error (.noSuchBookError (String.mk
        (match splitOnFirst ' ' s with
         | none => s
         | some (before, _) => before)))
  | some index =>
    let book := bookFromIndexD index
    match splitOnFirst ' ' s with
    | none =>
        if numberOfChapters book = 1 then .ok ⟨book, 1⟩
        else .error (.noChapterSpecified (String.mk s))
    | some (_, remain) =>
      match u8FromStr remain with
      | none => .error (.notANumber (String.mk remain))
      | some chapter =>
          if chapter = 0 then
            .error (.chapterOutOfRange "0. Chapter numbers start at 1")
          else if numberOfChapters book < chapter then
            .error (.chapterOutOfRange
              (bookName book ++ " has " ++ Nat.repr (numberOfChapters book)
                ++ " chapters. " ++ Nat.repr chapter ++ " is too high."))
          else .ok ⟨book, chapter⟩

/-- `BibleChapter::parse`: `from_str` with the error discarded. -/
def bibleChapterParse (s : List Char) : Option BibleChapter :=
  (bibleChapterFromStr s).toOption

/-- `Display for BibleChapter`: `"{abbrev} {chapter}"`. -/
def bibleChapterDisplay (c : BibleChapter) : List Char :=
  (bookAbbrev c.book).data ++ ' ' :: (Nat.repr c.chapter).data

/-- The `BibleVerse` struct of `src/structs/verse.rs`. -/
structure BibleVerse where
  book : BibleBook
  chapter : Nat
  verse : Nat
deriving DecidableEq

/-- `BibleVerse::from_str`: recognize the book, require a space, parse
the remainder as `ChapterAndVerseOrVerse`; a bare verse is accepted
only for single-chapter books (chapter 1 implicit). -/
def bibleVerseFromStr (s : List Char) : Except ParseErr BibleVerse :=
  match bibleBookParseAbbrev s with
  | none => .error (.noSuchBookError "No matching abbreviation")
  | some book =>
    match splitOnFirst ' ' s with
    | none => .error (.noChapterSpecified "No chapter/verse specified.")
    | some (_, remain) =>
      match chapterAndVerseOrVerseFromStr remain with
      | .error e => .error e
      | .ok (.justVerse verse) =>
          if numberOfChapters book = 1 then .ok ⟨book, 1, verse⟩
          else .error (.noChapterSpecified
            "Chapter can only be ommited for single-chapter books")
      | .ok (.both cv) => .ok ⟨book, cv.chapter, cv.verse⟩

/-- `BibleVerse::parse`: `from_str` with the error discarded. -/
def bibleVerseParse (s : List Char) : Option BibleVerse :=
  (bibleVerseFromStr s).toOption

/-- `Display for BibleVerse`: `"{abbrev} {chapter}:{verse}"`. -/
def bibleVerseDisplay (v : BibleVerse) : List Char :=
  (bookAbbrev v.book).data ++ ' ' :: (Nat.repr v.chapter).data
    ++ ':' :: (Nat.repr v.verse).data

/-- The `BibleVerseRange` struct of `src/structs/verserange.rs`. -/
structure BibleVerseRange where
  book : BibleBook
  range : ChapterAndVerseRange
deriving DecidableEq

/-- `BibleVerseRange::from_str`: recognize the book, require a space,
parse the remainder as a chapter-and-verse range; an implicit range is
accepted only for single-chapter books, and an empty range is an
`InvalidRange` error. -/
def bibleVerseRangeFromStr (s : List Char) : Except ParseErr BibleVerseRange :=
  match bibleBookParseAbbrev s with
  | none => .error (.noSuchBookError "No matching abbreviation")
  | some book =>
    match splitOnFirst ' ' s with
    | none => .error (.noChapterSpecified "No chapter/verse specified.")
    | some (_, remain) =>
      match chapterAndVerseRangeFromStr remain with
      | .ok cvr =>
          if rangeIsEmpty cvr then
            .error (.invalidRange "End verse before start")
          else .ok ⟨book, cvr⟩
      | .error (.implicitRange cvr) =>
          if numberOfChapters book = 1 then
            if rangeIsEmpty cvr then
              .error (.invalidRange "End verse before start")
            else .ok ⟨book, cvr⟩
          else .error (.noChapterSpecified
            "Chapter can only be ommited for single-chapter books")
      | .error e => .error e

/-- `BibleVerseRange::parse`: `from_str` with the error discarded. -/
def bibleVerseRangeParse (s : List Char) : Option BibleVerseRange :=
  (bibleVerseRangeFromStr s).toOption

/-- `Display for ChapterAndVerse`: `"{chapter}:{verse}"`. -/
def cvDisplay (cv : ChapterAndVerse) : List Char :=
  (Nat.repr cv.chapter).data ++ ':' :: (Nat.repr cv.verse).data

/-- `Display for BibleVerseRange`: single-chapter books render verse
numbers only; a single-point range renders without an end; an end in
the start's chapter renders its verse only. -/
def bibleVerseRangeDisplay (r : BibleVerseRange) : List Char :=
  let startStr :=
    if numberOfChapters r.book = 1 then (Nat.repr r.range.rstart.verse).data
    else cvDisplay r.range.rstart
  if r.range.rstart = r.range.rend then
    (bookAbbrev r.book).data ++ ' ' :: startStr
  else
    let endStr :=
      if numberOfChapters r.book = 1 ∨ r.range.rstart.chapter = r.range.rend.chapter
      then (Nat.repr r.range.rend.verse).data
      else cvDisplay r.range.rend
    (bookAbbrev r.book).data ++ ' ' :: (startStr ++ '-' :: endStr)

example : bibleChapterParse "Ge 1".data = some ⟨⟨0, by omega⟩, 1⟩ := by decide
example : bibleChapterParse "Ge 1:4".data = none := by decide
example : bibleChapterParse "Ge 51".data = none := by decide
example : bibleChapterParse "3Jn".data = some ⟨⟨63, by omega⟩, 1⟩ := by decide
example : bibleVerseParse "Ge 1:1".data = some ⟨⟨0, by omega⟩, 1, 1⟩ := by decide
example : bibleVerseParse "Ps 119:176".data = some ⟨⟨18, by omega⟩, 119, 176⟩ := by decide
example : bibleVerseParse "Jude 5".data = some ⟨⟨64, by omega⟩, 1, 5⟩ := by decide
example : bibleVerseParse "Judges 5".data = none := by decide
example : bibleVerseRangeParse "Ge 1:1-10".data
    = some ⟨⟨0, by omega⟩, ⟨1, 1⟩, ⟨1, 10⟩⟩ := by decide
example : bibleVerseRangeParse "Ob 2-5".data
    = some ⟨⟨30, by omega⟩, ⟨1, 2⟩, ⟨1, 5⟩⟩ := by decide
example : bibleVerseRangeParse "Ge 10:10-9".data = none := by decide
example : bibleVerseRangeParse "Ob 5-2".data = none := by decide
example : bibleVerseRangeDisplay ⟨⟨0, by omega⟩, ⟨1, 1⟩, ⟨1, 10⟩⟩
    = "Ge 1:1-10".data := by decide
example : bibleVerseRangeDisplay ⟨⟨39, by omega⟩, ⟨5, 20⟩, ⟨6, 5⟩⟩
    = "Mt 5:20-6:5".data := by decide
example : bibleVerseRangeDisplay ⟨⟨64, by omega⟩, ⟨1, 2⟩, ⟨1, 5⟩⟩
    = "Jude 2-5".data := by decide
example : bibleVerseRangeDisplay ⟨⟨64, by omega⟩, ⟨1, 2⟩, ⟨1, 2⟩⟩
    = "Jude 2".data := by decide
example : bibleVerseRangeParse "Ob 5:3".data
    = some ⟨⟨30, by omega⟩, ⟨5, 3⟩, ⟨5, 3⟩⟩ := by decide
example : bibleVerseRangeDisplay ⟨⟨30, by omega⟩, ⟨5, 3⟩, ⟨5, 3⟩⟩
    = "Ob 3".data := by decide
example : bibleVerseRangeParse "Ob 3".data
    = some ⟨⟨30, by omega⟩, ⟨1, 3⟩, ⟨1, 3⟩⟩ := by decide

/-! Helper lemmas. -/

theorem someAtEnd_eq {cs : List Char} {v i : Nat}
    (h : someAtEnd cs v = some i) : i = v := by
  unfold someAtEnd at h
  repeat' split at h
  all_goals simp_all

theorem someAtEnd2_eq {cs : List Char} {v i : Nat} {opt : Char}
    (h : someAtEnd2 cs v opt = some i) : i = v ∨ i = 0 := by
  unfold someAtEnd2 at h
  repeat' split at h
  · simp_all
  · simp_all
  · exact Or.inr (someAtEnd_eq h)
  · simp_all

theorem parseAbbrevM_lt {r : List Char} {i : Nat}
    (h : parseAbbrevM r = some i) : i < 66 := by
  unfold parseAbbrevM at h
  repeat' split at h
  all_goals first
    | exact Option.noConfusion h
    | (injection h with h'; omega)
    | (have h' := someAtEnd_eq h; omega)
    | (rcases someAtEnd2_eq h with h' | h' <;> omega)

theorem parseAbbrevL_lt {r : List Char} {i : Nat}
    (h : parseAbbrevL r = some i) : i < 66 := by
  unfold parseAbbrevL at h
  repeat' split at h
  all_goals first
    | exact Option.noConfusion h
    | (injection h with h'; omega)
    | (have h' := someAtEnd_eq h; omega)
    | (rcases someAtEnd2_eq h with h' | h' <;> omega)

theorem parseAbbrevJ_lt {r : List Char} {i : Nat}
    (h : parseAbbrevJ r = some i) : i < 66 := by
  unfold parseAbbrevJ at h
  repeat' split at h
  all_goals first
    | exact Option.noConfusion h
    | (injection h with h'; omega)
    | (have h' := someAtEnd_eq h; omega)
    | (rcases someAtEnd2_eq h with h' | h' <;> omega)

theorem parseAbbrevE_lt {r : List Char} {i : Nat}
    (h : parseAbbrevE r = some i) : i < 66 := by
  unfold parseAbbrevE at h
  repeat' split at h
  all_goals first
    | exact Option.noConfusion h
    | (injection h with h'; omega)
    | (have h' := someAtEnd_eq h; omega)
    | (rcases someAtEnd2_eq h with h' | h' <;> omega)

theorem parseAbbrevG_lt {r : List Char} {i : Nat}
    (h : parseAbbrevG r = some i) : i < 66 := by
  unfold parseAbbrevG at h
  repeat' split at h
  all_goals first
    | exact Option.noConfusion h
    | (injection h with h'; omega)
    | (have h' := someAtEnd_eq h; omega)
    | (rcases someAtEnd2_eq h with h' | h' <;> omega)

theorem parseAbbrevP_lt {r : List Char} {i : Nat}
    (h : parseAbbrevP r = some i) : i < 66 := by
  unfold parseAbbrevP at h
  repeat' split at h
  all_goals first
    | exact Option.noConfusion h
    | (injection h with h'; omega)
    | (have h' := someAtEnd_eq h; omega)
    | (rcases someAtEnd2_eq h with h' | h' <;> omega)

theorem parseAbbrevC_lt {r : List Char} {i : Nat}
    (h : parseAbbrevC r = some i) : i < 66 := by
  unfold parseAbbrevC at h
  repeat' split at h
  all_goals first
    | exact Option.noConfusion h
    | (injection h with h'; omega)
    | (have h' := someAtEnd_eq h; omega)
    | (rcases someAtEnd2_eq h with h' | h' <;> omega)

theorem parseAbbrevR_lt {r : List Char} {i : Nat}
    (h : parseAbbrevR r = some i) : i < 66 := by
  unfold parseAbbrevR at h
  repeat' split at h
  all_goals first
    | exact Option.noConfusion h
    | (injection h with h'; omega)
    | (have h' := someAtEnd_eq h; omega)
    | (rcases someAtEnd2_eq h with h' | h' <;> omega)

theorem parseAbbrevH_lt {r : List Char} {i : Nat}
    (h : parseAbbrevH r = some i) : i < 66 := by
  unfold parseAbbrevH at h
  repeat' split at h
  all_goals first
    | exact Option.noConfusion h
    | (injection h with h'; omega)
    | (have h' := someAtEnd_eq h; omega)
    | (rcases someAtEnd2_eq h with h' | h' <;> omega)

theorem parseAbbrevN_lt {r : List Char} {i : Nat}
    (h : parseAbbrevN r = some i) : i < 66 := by
  unfold parseAbbrevN at h
  repeat' split at h
  all_goals first
    | exact Option.noConfusion h
    | (injection h with h'; omega)
    | (have h' := someAtEnd_eq h; omega)
    | (rcases someAtEnd2_eq h with h' | h' <;> omega)

theorem parseAbbrevD_lt {r : List Char} {i : Nat}
    (h : parseAbbrevD r = some i) : i < 66 := by
  unfold parseAbbrevD at h
  repeat' split at h
  all_goals first
    | exact Option.noConfusion h
    | (injection h with h'; omega)
    | (have h' := someAtEnd_eq h; omega)
    | (rcases someAtEnd2_eq h with h' | h' <;> omega)

theorem parseAbbrevOne_lt {r : List Char} {i : Nat}
    (h : parseAbbrevOne r = some i) : i < 66 := by
  unfold parseAbbrevOne at h
  repeat' split at h
  all_goals first
    | exact Option.noConfusion h
    | (injection h with h'; omega)
    | (have h' := someAtEnd_eq h; omega)
    | (rcases someAtEnd2_eq h with h' | h' <;> omega)

theorem parseAbbrevTwo_lt {r : List Char} {i : Nat}
    (h : parseAbbrevTwo r = some i) : i < 66 := by
  unfold parseAbbrevTwo at h
  repeat' split at h
  all_goals first
    | exact Option.noConfusion h
    | (injection h with h'; omega)
    | (have h' := someAtEnd_eq h; omega)
    | (rcases someAtEnd2_eq h with h' | h' <;> omega)

theorem parseAbbrevI_lt {r : List Char} {i : Nat}
    (h : parseAbbrevI r = some i) : i < 66 := by
  unfold parseAbbrevI at h
  repeat' split at h
  all_goals first
    | exact Option.noConfusion h
    | (injection h with h'; omega)
    | (have h' := someAtEnd_eq h; omega)
    | (rcases someAtEnd2_eq h with h' | h' <;> omega)

theorem parseAbbrevA_lt {r : List Char} {i : Nat}
    (h : parseAbbrevA r = some i) : i < 66 := by
  unfold parseAbbrevA at h
  repeat' split at h
  all_goals first
    | exact Option.noConfusion h
    | (injection h with h'; omega)
    | (have h' := someAtEnd_eq h; omega)
    | (rcases someAtEnd2_eq h with h' | h' <;> omega)

theorem parseAbbrevZ_lt {r : List Char} {i : Nat}
    (h : parseAbbrevZ r = some i) : i < 66 := by
  unfold parseAbbrevZ at h
  repeat' split at h
  all_goals first
    | exact Option.noConfusion h
    | (injection h with h'; omega)
    | (have h' := someAtEnd_eq h; omega)
    | (rcases someAtEnd2_eq h with h' | h' <;> omega)

theorem parseAbbrevT_lt {r : List Char} {i : Nat}
    (h : parseAbbrevT r = some i) : i < 66 := by
  unfold parseAbbrevT at h
  repeat' split at h
  all_goals first
    | exact Option.noConfusion h
    | (injection h with h'; omega)
    | (have h' := someAtEnd_eq h; omega)
    | (rcases someAtEnd2_eq h with h' | h' <;> omega)

theorem parseAbbrevThree_lt {r : List Char} {i : Nat}
    (h : parseAbbrevThree r = some i) : i < 66 := by
  unfold parseAbbrevThree at h
  repeat' split at h
  all_goals first
    | exact Option.noConfusion h
    | (injection h with h'; omega)
    | (have h' := someAtEnd_eq h; omega)
    | (rcases someAtEnd2_eq h with h' | h' <;> omega)

theorem parseAbbrevS_lt {r : List Char} {i : Nat}
    (h : parseAbbrevS r = some i) : i < 66 := by
  unfold parseAbbrevS at h
  repeat' split at h
  all_goals first
    | exact Option.noConfusion h
    | (injection h with h'; omega)
    | (have h' := someAtEnd_eq h; omega)
    | (rcases someAtEnd2_eq h with h' | h' <;> omega)

theorem parseAbbrevO_lt {r : List Char} {i : Nat}
    (h : parseAbbrevO r = some i) : i < 66 := by
  unfold parseAbbrevO at h
  repeat' split at h
  all_goals first
    | exact Option.noConfusion h
    | (injection h with h'; omega)
    | (have h' := someAtEnd_eq h; omega)
    | (rcases someAtEnd2_eq h with h' | h' <;> omega)

/-- Every index the hand-written decision tree can return is below 66:
the unchecked `u8`-to-enum conversion downstream is in range. -/
theorem parseBookAbbrev_lt {s : List Char} {i : Nat}
    (h : parseBookAbbrev s = some i) : i < 66 := by
  cases s with
  | nil => exact Option.noConfusion h
  | cons c0 r0 =>
    simp only [parseBookAbbrev] at h
    by_cases e1 : c0 = 'M'
    · rw [if_pos e1] at h; exact parseAbbrevM_lt h
    rw [if_neg e1] at h
    by_cases e2 : c0 = 'L'
    · rw [if_pos e2] at h; exact parseAbbrevL_lt h
    rw [if_neg e2] at h
    by_cases e3 : c0 = 'J'
    · rw [if_pos e3] at h; exact parseAbbrevJ_lt h
    rw [if_neg e3] at h
    by_cases e4 : c0 = 'E'
    · rw [if_pos e4] at h; exact parseAbbrevE_lt h
    rw [if_neg e4] at h
    by_cases e5 : c0 = 'G'
    · rw [if_pos e5] at h; exact parseAbbrevG_lt h
    rw [if_neg e5] at h
    by_cases e6 : c0 = 'P'
    · rw [if_pos e6] at h; exact parseAbbrevP_lt h
    rw [if_neg e6] at h
    by_cases e7 : c0 = 'C'
    · rw [if_pos e7] at h; exact parseAbbrevC_lt h
    rw [if_neg e7] at h
    by_cases e8 : c0 = 'R'
    · rw [if_pos e8] at h; exact parseAbbrevR_lt h
    rw [if_neg e8] at h
    by_cases e9 : c0 = 'H'
    · rw [if_pos e9] at h; exact parseAbbrevH_lt h
    rw [if_neg e9] at h
    by_cases e10 : c0 = 'N'
    · rw [if_pos e10] at h; exact parseAbbrevN_lt h
    rw [if_neg e10] at h
    by_cases e11 : c0 = 'D'
    · rw [if_pos e11] at h; exact parseAbbrevD_lt h
    rw [if_neg e11] at h
    by_cases e12 : c0 = '1'
    · rw [if_pos e12] at h; exact parseAbbrevOne_lt h
    rw [if_neg e12] at h
    by_cases e13 : c0 = '2'
    · rw [if_pos e13] at h; exact parseAbbrevTwo_lt h
    rw [if_neg e13] at h
    by_cases e14 : c0 = 'I'
    · rw [if_pos e14] at h; exact parseAbbrevI_lt h
    rw [if_neg e14] at h
    by_cases e15 : c0 = 'A'
    · rw [if_pos e15] at h; exact parseAbbrevA_lt h
    rw [if_neg e15] at h
    by_cases e16 : c0 = 'Z'
    · rw [if_pos e16] at h; exact parseAbbrevZ_lt h
    rw [if_neg e16] at h
    by_cases e17 : c0 = 'T'
    · rw [if_pos e17] at h; exact parseAbbrevT_lt h
    rw [if_neg e17] at h
    by_cases e18 : c0 = '3'
    · rw [if_pos e18] at h; exact parseAbbrevThree_lt h
    rw [if_neg e18] at h
    by_cases e19 : c0 = 'S'
    · rw [if_pos e19] at h; exact parseAbbrevS_lt h
    rw [if_neg e19] at h
    by_cases e20 : c0 = 'O'
    · rw [if_pos e20] at h; exact parseAbbrevO_lt h
    rw [if_neg e20] at h
    exact Option.noConfusion h

theorem parseDigits_isDigit {l : List Char} {acc n : Nat}
    (h : parseDigits l acc = some n) : ∀ c ∈ l, c.isDigit := by
  induction l generalizing acc with
  | nil => simp
  | cons c rest ih =>
    simp only [parseDigits] at h
    by_cases hd : c.isDigit
    · rw [if_pos hd] at h
      split at h
      · intro x hx
        rcases List.mem_cons.mp hx with rfl | hx
        · exact hd
        · exact ih h x hx
      · exact Option.noConfusion h
    · rw [if_neg hd] at h
      exact Option.noConfusion h

theorem parseDigits_le {l : List Char} {acc n : Nat} (hacc : acc ≤ 255)
    (h : parseDigits l acc = some n) : n ≤ 255 := by
  induction l generalizing acc with
  | nil => simp only [parseDigits, Option.some.injEq] at h; omega
  | cons c rest ih =>
    simp only [parseDigits] at h
    split at h
    · split at h
      · exact ih (by omega) h
      · exact Option.noConfusion h
    · exact Option.noConfusion h

theorem u8FromStr_chars {s : List Char} {n : Nat}
    (h : u8FromStr s = some n) : ∀ c ∈ s, c = '+' ∨ c.isDigit := by
  unfold u8FromStr at h
  split at h
  · split at h
    · exact Option.noConfusion h
    · intro c hc
      rcases List.mem_cons.mp hc with rfl | hc
      · exact Or.inl rfl
      · exact Or.inr (parseDigits_isDigit h c hc)
  · simp
  · intro c hc
    exact Or.inr (parseDigits_isDigit h c hc)

theorem u8FromStr_le {s : List Char} {n : Nat}
    (h : u8FromStr s = some n) : n ≤ 255 := by
  unfold u8FromStr at h
  split at h
  · split at h
    · exact Option.noConfusion h
    · exact parseDigits_le (by omega) h
  · exact Option.noConfusion h
  · exact parseDigits_le (by omega) h

theorem u8FromStr_not_mem {s : List Char} {n : Nat} (c : Char)
    (h : u8FromStr s = some n) (h1 : c ≠ '+') (h2 : ¬ c.isDigit) :
    c ∉ s := by
  intro hc
  rcases u8FromStr_chars h c hc with h' | h'
  · exact h1 h'
  · exact h2 h'

theorem splitOnFirst_of_not_mem {c : Char} {s : List Char}
    (h : c ∉ s) : splitOnFirst c s = none := by
  induction s with
  | nil => rfl
  | cons x rest ih =>
    have hx : ¬ x = c := fun he => h (List.mem_cons.mpr (Or.inl he.symm))
    have hr : c ∉ rest := fun hc => h (List.mem_cons_of_mem x hc)
    simp only [splitOnFirst, if_neg hx, ih hr]

theorem splitOnFirst_append {c : Char} {a : List Char} (r : List Char)
    (h : c ∉ a) : splitOnFirst c (a ++ c :: r) = some (a, r) := by
  induction a with
  | nil => simp [splitOnFirst]
  | cons x rest ih =>
    have hx : ¬ x = c := fun he => h (List.mem_cons.mpr (Or.inl he.symm))
    have hr : c ∉ rest := fun hc => h (List.mem_cons_of_mem x hc)
    simp only [List.cons_append, splitOnFirst, if_neg hx, List.append_eq]
    rw [ih hr]

theorem splitOnFirst_eq_some {c : Char} {s a b : List Char}
    (h : splitOnFirst c s = some (a, b)) : s = a ++ c :: b ∧ c ∉ a := by
  induction s generalizing a with
  | nil => simp [splitOnFirst] at h
  | cons x rest ih =>
    simp only [splitOnFirst] at h
    split at h
    · rename_i hx
      simp only [Option.some.injEq, Prod.mk.injEq] at h
      obtain ⟨h1, h2⟩ := h
      subst h1; subst h2; subst hx
      simp
    · rename_i hx
      split at h
      · exact Option.noConfusion h
      · rename_i a' b' hs
        simp only [Option.some.injEq, Prod.mk.injEq] at h
        obtain ⟨h1, h2⟩ := h
        subst h2
        obtain ⟨hr, hmem⟩ := ih hs
        subst hr
        constructor
        · rw [← h1]; simp
        · rw [← h1]
          intro hc
          rcases List.mem_cons.mp hc with he | hc
          · exact hx he.symm
          · exact hmem hc

set_option maxHeartbeats 2000000 in
set_option maxRecDepth 10000 in
/-- Decimal rendering of any `u8` value re-parses to itself, and
contains none of the structural separator characters. -/
theorem u8FromStr_repr : ∀ n : Fin 256,
    u8FromStr (Nat.repr n.val).data = some n.val
    ∧ ':' ∉ (Nat.repr n.val).data
    ∧ '-' ∉ (Nat.repr n.val).data
    ∧ ' ' ∉ (Nat.repr n.val).data := by decide

theorem u8FromStr_repr_of_le {n : Nat} (h : n ≤ 255) :
    u8FromStr (Nat.repr n).data = some n
    ∧ ':' ∉ (Nat.repr n).data
    ∧ '-' ∉ (Nat.repr n).data
    ∧ ' ' ∉ (Nat.repr n).data :=
  u8FromStr_repr ⟨n, by omega⟩

theorem bookAbbrev_no_space : ∀ b : BibleBook, ' ' ∉ (bookAbbrev b).data := by
  decide

set_option maxHeartbeats 2000000 in
/-- The recognizer accepts each canonical abbreviation followed by a
space, whatever comes after the space, and reports the right index. -/
theorem parseBookAbbrev_abbrev_space : ∀ (b : BibleBook) (rest : List Char),
    parseBookAbbrev ((bookAbbrev b).data ++ ' ' :: rest) = some b.val := by
  intro b rest
  fin_cases b <;> rfl

theorem bibleBookFromIndex_val (b : BibleBook) :
    bibleBookFromIndex b.val = .ok b := by
  have h1 : b.val < 66 := b.isLt
  unfold bibleBookFromIndex
  rw [if_neg (by omega), if_neg (by omega)]
  unfold bibleBookFromBookNumber
  rw [if_neg (by omega), dif_pos (by omega)]
  congr 1

theorem bibleBookParseAbbrev_abbrev_space (b : BibleBook) (rest : List Char) :
    bibleBookParseAbbrev ((bookAbbrev b).data ++ ' ' :: rest) = some b := by
  unfold bibleBookParseAbbrev
  rw [parseBookAbbrev_abbrev_space b rest]
  simp [bibleBookFromIndex_val, Except.toOption]

theorem cvLe_iff {a b : ChapterAndVerse} :
    cvLe a b ↔ a.chapter < b.chapter
      ∨ (a.chapter = b.chapter ∧ a.verse ≤ b.verse) := by
  unfold cvLe cvCmp
  rcases Nat.lt_trichotomy a.chapter b.chapter with hlt | heq | hgt
  · rw [Nat.compare_eq_lt.mpr hlt]
    simp <;> omega
  · rw [Nat.compare_eq_eq.mpr heq]
    rcases Nat.lt_or_ge b.verse a.verse with hv | hv
    · rw [Nat.compare_eq_gt.mpr hv]
      simp <;> omega
    · have hne : compare a.verse b.verse ≠ .gt := by
        intro hc
        exact absurd (Nat.compare_eq_gt.mp hc) (by omega)
      simp [hne] <;> omega
  · rw [Nat.compare_eq_gt.mpr hgt]
    simp <;> omega

theorem rangeIsEmpty_eq_false {r : ChapterAndVerseRange} :
    rangeIsEmpty r = false ↔ cvLe r.rstart r.rend := by
  unfold rangeIsEmpty cvLe
  cases cvCmp r.rstart r.rend <;> decide

theorem chapterAndVerseFromStr_ok {s : List Char} {cv : ChapterAndVerse}
    (h : chapterAndVerseFromStr s = .ok cv) :
    cv.chapter ≤ 255 ∧ cv.verse ≤ 255 ∧ '-' ∉ s ∧ ' ' ∉ s := by
  unfold chapterAndVerseFromStr at h
  split at h
  · exact Except.noConfusion h
  · rename_i p before after heq
    split at h
    · exact Except.noConfusion h
    · rename_i ch hch
      split at h
      · exact Except.noConfusion h
      · rename_i vs hvs
        injection h with h
        subst h
        obtain ⟨hs, _⟩ := splitOnFirst_eq_some heq
        subst hs
        refine ⟨u8FromStr_le hch, u8FromStr_le hvs, ?_, ?_⟩
        · intro hm
          rcases List.mem_append.mp hm with hm | hm
          · exact u8FromStr_not_mem '-' hch (by decide) (by decide) hm
          · rcases List.mem_cons.mp hm with he | hm
            · exact absurd he (by decide)
            · exact u8FromStr_not_mem '-' hvs (by decide) (by decide) hm
        · intro hm
          rcases List.mem_append.mp hm with hm | hm
          · exact u8FromStr_not_mem ' ' hch (by decide) (by decide) hm
          · rcases List.mem_cons.mp hm with he | hm
            · exact absurd he (by decide)
            · exact u8FromStr_not_mem ' ' hvs (by decide) (by decide) hm

theorem cvvFromStr_ok_both {s : List Char} {cv : ChapterAndVerse}
    (h : chapterAndVerseOrVerseFromStr s = .ok (.both cv)) :
    cv.chapter ≤ 255 ∧ cv.verse ≤ 255 ∧ '-' ∉ s ∧ ' ' ∉ s := by
  unfold chapterAndVerseOrVerseFromStr at h
  split at h
  · split at h
    · injection h with h
      exact ChapterAndVerseOrVerse.noConfusion h
    · exact Except.noConfusion h
  · match hcv : chapterAndVerseFromStr s with
    | .error e => rw [hcv] at h; exact Except.noConfusion h
    | .ok cv' =>
      rw [hcv] at h
      simp only [Except.map, Except.ok.injEq] at h
      injection h with h
      subst h
      exact chapterAndVerseFromStr_ok hcv

theorem cvvFromStr_ok_just {s : List Char} {v : Nat}
    (h : chapterAndVerseOrVerseFromStr s = .ok (.justVerse v)) :
    v ≤ 255 ∧ u8FromStr s = some v := by
  unfold chapterAndVerseOrVerseFromStr at h
  split at h
  · split at h
    · rename_i v' hv
      injection h with h
      injection h with h
      subst h
      exact ⟨u8FromStr_le hv, hv⟩
    · exact Except.noConfusion h
  · match hcv : chapterAndVerseFromStr s with
    | .error e => rw [hcv] at h; exact Except.noConfusion h
    | .ok cv' =>
      rw [hcv] at h
      simp only [Except.map, Except.ok.injEq] at h
      exact ChapterAndVerseOrVerse.noConfusion h

theorem chapterAndVerseFromStr_display {ch vs : Nat} (hch : ch ≤ 255)
    (hvs : vs ≤ 255) :
    chapterAndVerseFromStr ((Nat.repr ch).data ++ ':' :: (Nat.repr vs).data)
      = .ok ⟨ch, vs⟩ := by
  obtain ⟨hc1, hc2, hc3, hc4⟩ := u8FromStr_repr_of_le hch
  obtain ⟨hv1, hv2, hv3, hv4⟩ := u8FromStr_repr_of_le hvs
  unfold chapterAndVerseFromStr
  rw [splitOnFirst_append _ hc2]
  simp only [hc1, hv1]

theorem cvDisplay_parse {ch vs : Nat} (hch : ch ≤ 255) (hvs : vs ≤ 255) :
    chapterAndVerseOrVerseFromStr (cvDisplay ⟨ch, vs⟩) = .ok (.both ⟨ch, vs⟩) := by
  obtain ⟨hc1, hc2, hc3, hc4⟩ := u8FromStr_repr_of_le hch
  unfold chapterAndVerseOrVerseFromStr cvDisplay
  dsimp only
  rw [splitOnFirst_append _ hc2, chapterAndVerseFromStr_display hch hvs]
  rfl

theorem reprVerse_parse {v : Nat} (hv : v ≤ 255) :
    chapterAndVerseOrVerseFromStr (Nat.repr v).data = .ok (.justVerse v) := by
  obtain ⟨h1, h2, h3, h4⟩ := u8FromStr_repr_of_le hv
  unfold chapterAndVerseOrVerseFromStr
  rw [splitOnFirst_of_not_mem h2, h1]

theorem not_mem_append_cons {c x : Char} {a b : List Char}
    (ha : c ∉ a) (hx : c ≠ x) (hb : c ∉ b) : c ∉ a ++ x :: b := by
  intro hm
  rcases List.mem_append.mp hm with hm | hm
  · exact ha hm
  · rcases List.mem_cons.mp hm with he | hm
    · exact hx he
    · exact hb hm

theorem chapterAndVerseFromStr_error_shape {s : List Char} {e : ParseErr}
    (h : chapterAndVerseFromStr s = .error e) :
    (∃ m, e = .notANumber m) ∨ (∃ m, e = .invalidFormat m) := by
  unfold chapterAndVerseFromStr at h
  repeat' split at h
  all_goals first
    | exact Except.noConfusion h
    | (injection h with h; exact Or.inl ⟨_, h.symm⟩)
    | (injection h with h; exact Or.inr ⟨_, h.symm⟩)

theorem cvvFromStr_error_shape {s : List Char} {e : ParseErr}
    (h : chapterAndVerseOrVerseFromStr s = .error e) :
    (∃ m, e = .notANumber m) ∨ (∃ m, e = .invalidFormat m) := by
  unfold chapterAndVerseOrVerseFromStr at h
  split at h
  · split at h
    · exact Except.noConfusion h
    · injection h with h
      exact Or.inl ⟨_, h.symm⟩
  · match hcv : chapterAndVerseFromStr s with
    | .error e' =>
      rw [hcv] at h
      simp only [Except.map] at h
      injection h with h
      subst h
      exact chapterAndVerseFromStr_error_shape hcv
    | .ok cv' =>
      rw [hcv] at h
      simp only [Except.map] at h
      exact Except.noConfusion h

/-- Structural bounds on every full range the range parser returns:
all four endpoint components came through `u8` parsing (or chapter
inheritance from a side that did). -/
theorem cvRangeFromStr_ok {s : List Char} {cvr : ChapterAndVerseRange}
    (h : chapterAndVerseRangeFromStr s = .ok cvr) :
    cvr.rstart.chapter ≤ 255 ∧ cvr.rstart.verse ≤ 255
    ∧ cvr.rend.chapter ≤ 255 ∧ cvr.rend.verse ≤ 255 := by
  unfold chapterAndVerseRangeFromStr at h
  split at h
  · split at h
    · exact Except.noConfusion h
    · rename_i cv hcv
      injection h with h
      subst h
      obtain ⟨h1, h2, _, _⟩ := cvvFromStr_ok_both hcv
      exact ⟨h1, h2, h1, h2⟩
    · exact Except.noConfusion h
  · split at h
    · exact Except.noConfusion h
    · rename_i cvvStart hstart
      split at h
      · exact Except.noConfusion h
      · rename_i cvvEnd hend
        split at h
        · rename_i cvStart
          split at h
          · rename_i cvEnd
            injection h with h
            subst h
            obtain ⟨h1, h2, _, _⟩ := cvvFromStr_ok_both hstart
            obtain ⟨h3, h4, _, _⟩ := cvvFromStr_ok_both hend
            exact ⟨h1, h2, h3, h4⟩
          · rename_i v
            injection h with h
            subst h
            obtain ⟨h1, h2, _, _⟩ := cvvFromStr_ok_both hstart
            obtain ⟨h3, _⟩ := cvvFromStr_ok_just hend
            exact ⟨h1, h2, h1, h3⟩
        · rename_i v
          split at h
          · exact Except.noConfusion h
          · exact Except.noConfusion h

/-- Structural facts about every implicit range the range parser
surfaces: both chapters are the assumed chapter 1 and both verses are
`u8`-bounded. -/
theorem cvRangeFromStr_implicit {s : List Char} {cvr : ChapterAndVerseRange}
    (h : chapterAndVerseRangeFromStr s = .error (.implicitRange cvr)) :
    cvr.rstart.chapter = 1 ∧ cvr.rend.chapter = 1
    ∧ cvr.rstart.verse ≤ 255 ∧ cvr.rend.verse ≤ 255 := by
  unfold chapterAndVerseRangeFromStr at h
  split at h
  · split at h
    · rename_i e he
      injection h with h
      subst h
      rcases cvvFromStr_error_shape he with ⟨m, hm⟩ | ⟨m, hm⟩ <;>
        exact ParseErr.noConfusion hm
    · exact Except.noConfusion h
    · rename_i v hv
      injection h with h
      injection h with h
      subst h
      obtain ⟨h1, _⟩ := cvvFromStr_ok_just hv
      exact ⟨rfl, rfl, h1, h1⟩
  · split at h
    · rename_i e he
      injection h with h
      subst h
      rcases cvvFromStr_error_shape he with ⟨m, hm⟩ | ⟨m, hm⟩ <;>
        exact ParseErr.noConfusion hm
    · rename_i cvvStart hstart
      split at h
      · rename_i e he
        injection h with h
        subst h
        rcases cvvFromStr_error_shape he with ⟨m, hm⟩ | ⟨m, hm⟩ <;>
          exact ParseErr.noConfusion hm
      · rename_i cvvEnd hend
        split at h
        · rename_i cvStart
          split at h
          · exact Except.noConfusion h
          · exact Except.noConfusion h
        · rename_i v
          split at h
          · injection h with h
            exact ParseErr.noConfusion h
          · rename_i v2
            injection h with h
            injection h with h
            subst h
            obtain ⟨h1, _⟩ := cvvFromStr_ok_just hstart
            obtain ⟨h2, _⟩ := cvvFromStr_ok_just hend
            exact ⟨rfl, rfl, h1, h2⟩

theorem cvDisplay_no_dash {ch vs : Nat} (hch : ch ≤ 255) (hvs : vs ≤ 255) :
    '-' ∉ cvDisplay ⟨ch, vs⟩ := by
  obtain ⟨_, _, hc3, _⟩ := u8FromStr_repr_of_le hch
  obtain ⟨_, _, hv3, _⟩ := u8FromStr_repr_of_le hvs
  unfold cvDisplay
  dsimp only
  exact not_mem_append_cons hc3 (by decide) hv3

theorem cvDisplay_no_space {ch vs : Nat} (hch : ch ≤ 255) (hvs : vs ≤ 255) :
    ' ' ∉ cvDisplay ⟨ch, vs⟩ := by
  obtain ⟨_, _, _, hc4⟩ := u8FromStr_repr_of_le hch
  obtain ⟨_, _, _, hv4⟩ := u8FromStr_repr_of_le hvs
  unfold cvDisplay
  dsimp only
  exact not_mem_append_cons hc4 (by decide) hv4

/-- Rendered point range `"c:v"` re-parses as a full one-point range. -/
theorem cvRange_display_point {ch vs : Nat} (hch : ch ≤ 255) (hvs : vs ≤ 255) :
    chapterAndVerseRangeFromStr (cvDisplay ⟨ch, vs⟩)
      = .ok ⟨⟨ch, vs⟩, ⟨ch, vs⟩⟩ := by
  unfold chapterAndVerseRangeFromStr
  rw [splitOnFirst_of_not_mem (cvDisplay_no_dash hch hvs)]
  rw [cvDisplay_parse hch hvs]

/-- Rendered same-chapter range `"c:v1-v2"` re-parses as a full range
whose end inherits the start's chapter. -/
theorem cvRange_display_same_chapter {ch v1 v2 : Nat} (hch : ch ≤ 255)
    (hv1 : v1 ≤ 255) (hv2 : v2 ≤ 255) :
    chapterAndVerseRangeFromStr (cvDisplay ⟨ch, v1⟩ ++ '-' :: (Nat.repr v2).data)
      = .ok ⟨⟨ch, v1⟩, ⟨ch, v2⟩⟩ := by
  unfold chapterAndVerseRangeFromStr
  rw [splitOnFirst_append _ (cvDisplay_no_dash hch hv1)]
  simp only [cvDisplay_parse hch hv1, reprVerse_parse hv2]

/-- Rendered cross-chapter range `"c1:v1-c2:v2"` re-parses as a full
range with both endpoints explicit. -/
theorem cvRange_display_two_chapters {c1 v1 c2 v2 : Nat} (hc1 : c1 ≤ 255)
    (hv1 : v1 ≤ 255) (hc2 : c2 ≤ 255) (hv2 : v2 ≤ 255) :
    chapterAndVerseRangeFromStr (cvDisplay ⟨c1, v1⟩ ++ '-' :: cvDisplay ⟨c2, v2⟩)
      = .ok ⟨⟨c1, v1⟩, ⟨c2, v2⟩⟩ := by
  unfold chapterAndVerseRangeFromStr
  rw [splitOnFirst_append _ (cvDisplay_no_dash hc1 hv1)]
  simp only [cvDisplay_parse hc1 hv1, cvDisplay_parse hc2 hv2]

/-- Rendered bare verse `"v"` re-parses as an implicit one-point
range. -/
theorem cvRange_display_bare {v : Nat} (hv : v ≤ 255) :
    chapterAndVerseRangeFromStr (Nat.repr v).data
      = .error (.implicitRange ⟨⟨1, v⟩, ⟨1, v⟩⟩) := by
  obtain ⟨_, _, h3, _⟩ := u8FromStr_repr_of_le hv
  unfold chapterAndVerseRangeFromStr
  rw [splitOnFirst_of_not_mem h3, reprVerse_parse hv]

/-- Rendered bare range `"v1-v2"` re-parses as an implicit range. -/
theorem cvRange_display_bare_range {v1 v2 : Nat} (hv1 : v1 ≤ 255)
    (hv2 : v2 ≤ 255) :
    chapterAndVerseRangeFromStr ((Nat.repr v1).data ++ '-' :: (Nat.repr v2).data)
      = .error (.implicitRange ⟨⟨1, v1⟩, ⟨1, v2⟩⟩) := by
  obtain ⟨_, _, h3, _⟩ := u8FromStr_repr_of_le hv1
  unfold chapterAndVerseRangeFromStr
  rw [splitOnFirst_append _ h3]
  simp only [reprVerse_parse hv1, reprVerse_parse hv2]

/-- `BibleVerse::from_str` on a well-formed `"<abbrev> <rest>"` input
reduces to the chapter-and-verse analysis of `rest`. -/
theorem bibleVerseFromStr_build (b : BibleBook) (rest : List Char) :
    bibleVerseFromStr ((bookAbbrev b).data ++ ' ' :: rest)
      = match chapterAndVerseOrVerseFromStr rest with
        | .error e => .error e
        | .ok (.justVerse verse) =>
            if numberOfChapters b = 1 then .ok ⟨b, 1, verse⟩
            else .error (.noChapterSpecified
              "Chapter can only be ommited for single-chapter books")
        | .ok (.both cv) => .ok ⟨b, cv.chapter, cv.verse⟩ := by
  unfold bibleVerseFromStr
  rw [bibleBookParseAbbrev_abbrev_space b rest]
  dsimp only
  rw [splitOnFirst_append _ (bookAbbrev_no_space b)]

/-- `BibleVerseRange::from_str` on a well-formed `"<abbrev> <rest>"`
input reduces to the range analysis of `rest`. -/
theorem bibleVerseRangeFromStr_build (b : BibleBook) (rest : List Char) :
    bibleVerseRangeFromStr ((bookAbbrev b).data ++ ' ' :: rest)
      = match chapterAndVerseRangeFromStr rest with
        | .ok cvr =>
            if rangeIsEmpty cvr then .error (.invalidRange "End verse before start")
            else .ok ⟨b, cvr⟩
        | .error (.implicitRange cvr) =>
            if numberOfChapters b = 1 then
              if rangeIsEmpty cvr then .error (.invalidRange "End verse before start")
              else .ok ⟨b, cvr⟩
            else .error (.noChapterSpecified
              "Chapter can only be ommited for single-chapter books")
        | .error e => .error e := by
  unfold bibleVerseRangeFromStr
  rw [bibleBookParseAbbrev_abbrev_space b rest]
  dsimp only
  rw [splitOnFirst_append _ (bookAbbrev_no_space b)]

theorem cvCmp_self (a : ChapterAndVerse) : cvCmp a a = .eq := by
  unfold cvCmp
  rw [Nat.compare_eq_eq.mpr rfl, Nat.compare_eq_eq.mpr rfl]

theorem cvLe_refl (a : ChapterAndVerse) : cvLe a a := by
  unfold cvLe
  rw [cvCmp_self]
  decide

theorem rangeIsEmpty_of_le {s e : ChapterAndVerse} (h : cvLe s e) :
    rangeIsEmpty ⟨s, e⟩ = false :=
  rangeIsEmpty_eq_false.mpr h

theorem bibleVerseFromStr_ok {s : List Char} {v : BibleVerse}
    (h : bibleVerseFromStr s = .ok v) :
    v.chapter ≤ 255 ∧ v.verse ≤ 255 := by
  unfold bibleVerseFromStr at h
  split at h
  · exact Except.noConfusion h
  · split at h
    · exact Except.noConfusion h
    · split at h
      · exact Except.noConfusion h
      · rename_i verse hjv
        split at h
        · injection h with h
          subst h
          obtain ⟨hv, _⟩ := cvvFromStr_ok_just hjv
          exact ⟨by dsimp only; omega, hv⟩
        · exact Except.noConfusion h
      · rename_i cv hboth
        injection h with h
        subst h
        obtain ⟨h1, h2, _, _⟩ := cvvFromStr_ok_both hboth
        exact ⟨h1, h2⟩

theorem bibleVerseRangeFromStr_ok {s : List Char} {r : BibleVerseRange}
    (h : bibleVerseRangeFromStr s = .ok r) :
    cvLe r.range.rstart r.range.rend
    ∧ r.range.rstart.chapter ≤ 255 ∧ r.range.rstart.verse ≤ 255
    ∧ r.range.rend.chapter ≤ 255 ∧ r.range.rend.verse ≤ 255 := by
  unfold bibleVerseRangeFromStr at h
  split at h
  · exact Except.noConfusion h
  · split at h
    · exact Except.noConfusion h
    · split at h
      · rename_i cvr hok
        split at h
        · exact Except.noConfusion h
        · rename_i hemp
          injection h with h
          subst h
          have hfalse : rangeIsEmpty cvr = false := by
            revert hemp
            cases rangeIsEmpty cvr <;> simp
          obtain ⟨b1, b2, b3, b4⟩ := cvRangeFromStr_ok hok
          exact ⟨rangeIsEmpty_eq_false.mp hfalse, b1, b2, b3, b4⟩
      · rename_i cvr himp
        split at h
        · split at h
          · exact Except.noConfusion h
          · rename_i hemp
            injection h with h
            subst h
            have hfalse : rangeIsEmpty cvr = false := by
              revert hemp
              cases rangeIsEmpty cvr <;> simp
            obtain ⟨b1, b2, b3, b4⟩ := cvRangeFromStr_implicit himp
            exact ⟨rangeIsEmpty_eq_false.mp hfalse, by dsimp only; omega, b3,
              by dsimp only; omega, b4⟩
        · exact Except.noConfusion h
      · exact Except.noConfusion h

/-- The `Display` rendering of any `BibleVerse` with `u8`-bounded
components re-parses to the same value: the rendering always prints
an explicit `chapter:verse`, which the parser takes through its
explicit-pair branch with no book-dependent condition. -/
theorem bibleVerse_display_parse (v : BibleVerse) (hch : v.chapter ≤ 255)
    (hvs : v.verse ≤ 255) :
    bibleVerseParse (bibleVerseDisplay v) = some v := by
  have hd : bibleVerseDisplay v
      = (bookAbbrev v.book).data ++ ' ' :: cvDisplay ⟨v.chapter, v.verse⟩ := by
    unfold bibleVerseDisplay cvDisplay
    dsimp only
    simp [List.cons_append]
  unfold bibleVerseParse
  rw [hd, bibleVerseFromStr_build, cvDisplay_parse hch hvs]
  rfl

/-- The `Display` rendering of a `BibleVerseRange` re-parses to the
same value, provided the book is multi-chapter, or both endpoint
chapters are the implicit chapter 1 (for a single-chapter book the
rendering drops the chapter numbers, so other chapters cannot
survive the round trip). -/
theorem bibleVerseRange_display_parse (b : BibleBook) (c1 v1 c2 v2 : Nat)
    (h1 : c1 ≤ 255) (h2 : v1 ≤ 255) (h3 : c2 ≤ 255) (h4 : v2 ≤ 255)
    (hle : cvLe ⟨c1, v1⟩ ⟨c2, v2⟩)
    (hcond : numberOfChapters b ≠ 1 ∨ (c1 = 1 ∧ c2 = 1)) :
    bibleVerseRangeParse (bibleVerseRangeDisplay ⟨b, ⟨c1, v1⟩, ⟨c2, v2⟩⟩)
      = some ⟨b, ⟨c1, v1⟩, ⟨c2, v2⟩⟩ := by
  unfold bibleVerseRangeParse
  by_cases hb : numberOfChapters b = 1
  · obtain ⟨rfl, rfl⟩ : c1 = 1 ∧ c2 = 1 := by
      rcases hcond with hc | hc
      · exact absurd hb hc
      · exact hc
    by_cases hpoint : (⟨1, v1⟩ : ChapterAndVerse) = ⟨1, v2⟩
    · obtain ⟨-, rfl⟩ : (1 : Nat) = 1 ∧ v1 = v2 := by
        simpa [ChapterAndVerse.mk.injEq] using hpoint
      have hd : bibleVerseRangeDisplay ⟨b, ⟨1, v1⟩, ⟨1, v1⟩⟩
          = (bookAbbrev b).data ++ ' ' :: (Nat.repr v1).data := by
        unfold bibleVerseRangeDisplay
        dsimp only
        rw [if_pos rfl, if_pos hb]
      rw [hd, bibleVerseRangeFromStr_build, cvRange_display_bare h2]
      dsimp only
      rw [if_pos hb, if_neg (by rw [rangeIsEmpty_of_le (cvLe_refl _)]; decide)]
      rfl
    · have hd : bibleVerseRangeDisplay ⟨b, ⟨1, v1⟩, ⟨1, v2⟩⟩
          = (bookAbbrev b).data
            ++ ' ' :: ((Nat.repr v1).data ++ '-' :: (Nat.repr v2).data) := by
        unfold bibleVerseRangeDisplay
        dsimp only
        rw [if_neg hpoint, if_pos hb, if_pos (Or.inl hb)]
      rw [hd, bibleVerseRangeFromStr_build, cvRange_display_bare_range h2 h4]
      dsimp only
      rw [if_pos hb, if_neg (by rw [rangeIsEmpty_of_le hle]; decide)]
      rfl
  · by_cases hpoint : (⟨c1, v1⟩ : ChapterAndVerse) = ⟨c2, v2⟩
    · obtain ⟨rfl, rfl⟩ : c1 = c2 ∧ v1 = v2 := by
        simpa [ChapterAndVerse.mk.injEq] using hpoint
      have hd : bibleVerseRangeDisplay ⟨b, ⟨c1, v1⟩, ⟨c1, v1⟩⟩
          = (bookAbbrev b).data ++ ' ' :: cvDisplay ⟨c1, v1⟩ := by
        unfold bibleVerseRangeDisplay
        dsimp only
        rw [if_pos rfl, if_neg hb]
      rw [hd, bibleVerseRangeFromStr_build, cvRange_display_point h1 h2]
      dsimp only
      rw [if_neg (by rw [rangeIsEmpty_of_le (cvLe_refl _)]; decide)]
      rfl
    · by_cases hcc : c1 = c2
      · subst hcc
        have hd : bibleVerseRangeDisplay ⟨b, ⟨c1, v1⟩, ⟨c1, v2⟩⟩
            = (bookAbbrev b).data
              ++ ' ' :: (cvDisplay ⟨c1, v1⟩ ++ '-' :: (Nat.repr v2).data) := by
          unfold bibleVerseRangeDisplay
          dsimp only
          rw [if_neg hpoint, if_neg hb, if_pos (Or.inr rfl)]
        rw [hd, bibleVerseRangeFromStr_build,
          cvRange_display_same_chapter h1 h2 h4]
        dsimp only
        rw [if_neg (by rw [rangeIsEmpty_of_le hle]; decide)]
        rfl
      · have hd : bibleVerseRangeDisplay ⟨b, ⟨c1, v1⟩, ⟨c2, v2⟩⟩
            = (bookAbbrev b).data
              ++ ' ' :: (cvDisplay ⟨c1, v1⟩ ++ '-' :: cvDisplay ⟨c2, v2⟩) := by
          unfold bibleVerseRangeDisplay
          dsimp only
          rw [if_neg hpoint, if_neg hb,
            if_neg (by intro hor; rcases hor with hor | hor
                       · exact hb hor
                       · exact hcc hor)]
        rw [hd, bibleVerseRangeFromStr_build,
          cvRange_display_two_chapters h1 h2 h3 h4]
        dsimp only
        rw [if_neg (by rw [rangeIsEmpty_of_le hle]; decide)]
        rfl

theorem except_toOption_some {ε α : Type} {x : Except ε α} {a : α}
    (h : x.toOption = some a) : x = .ok a := by
  cases x with
  | error e => simp [Except.toOption] at h
  | ok v =>
    simp [Except.toOption] at h
    rw [h]

/-! Claim theorems. -/

set_option maxHeartbeats 2000000 in
/-- C1: for every canonical abbreviation `A` at table index `i`,
`parse_book_abbrev` returns `Some i` on `A` and on `A ++ " "`, and
`None` on `A ++ "q"`. -/
theorem C1_abbrev_table_roundtrip : ∀ i : Fin 66,
    parseBookAbbrev (bookAbbrev i).data = some i.val
    ∧ parseBookAbbrev ((bookAbbrev i).data ++ [' ']) = some i.val
    ∧ parseBookAbbrev ((bookAbbrev i).data ++ ['q']) = none := by
  decide

/-- C2: the claim says `parse_book_abbrev` returns `Some 21` (Song of
Songs) for both `"SS"` and `"SoS"`.  The code does so for `"SS"`, but
for `"SoS"` it returns `Some 0` (the Genesis index): the recursive arm
of the `some_at_end!` macro discards the value `21` passed at the call
site and yields its literal `0` instead.  This theorem evaluates the
embedded code at the failing input. -/
theorem C2_sos_macro_bug :
    parseBookAbbrev "SS".data = some 21
    ∧ parseBookAbbrev ("SS".data ++ [' ']) = some 21
    ∧ parseBookAbbrev "SoS".data = some 0
    ∧ parseBookAbbrev ("SoS".data ++ [' ']) = some 0
    ∧ parseBookAbbrev "SoS".data ≠ some 21 := by
  decide

/-- C3 counterexample: `"Ob 5:3"` parses successfully (chapter 5 of
the single-chapter book Obadiah is never validated), but its rendering
is `"Ob 3"`, which re-parses to the different value with chapter 1 —
render-then-reparse is not the identity on this parsed value. -/
theorem C3_counterexample :
    bibleVerseRangeParse "Ob 5:3".data
      = some ⟨⟨30, by omega⟩, ⟨5, 3⟩, ⟨5, 3⟩⟩
    ∧ bibleVerseRangeDisplay ⟨⟨30, by omega⟩, ⟨5, 3⟩, ⟨5, 3⟩⟩ = "Ob 3".data
    ∧ bibleVerseRangeParse
        (bibleVerseRangeDisplay ⟨⟨30, by omega⟩, ⟨5, 3⟩, ⟨5, 3⟩⟩)
      = some ⟨⟨30, by omega⟩, ⟨1, 3⟩, ⟨1, 3⟩⟩
    ∧ (⟨⟨30, by omega⟩, ⟨1, 3⟩, ⟨1, 3⟩⟩ : BibleVerseRange)
      ≠ ⟨⟨30, by omega⟩, ⟨5, 3⟩, ⟨5, 3⟩⟩ := by
  decide

/-- C3 (amended): render-then-reparse is the identity on every
successfully parsed `BibleVerse`; and on every successfully parsed
`BibleVerseRange` whose book has more than one chapter or whose two
endpoint chapters are both 1 (for a single-chapter book the rendering
drops chapter numbers, so a parsed range carrying another chapter
does not survive the round trip). -/
theorem C3_roundtrip_amended :
    (∀ (s : List Char) (v : BibleVerse), bibleVerseParse s = some v →
      bibleVerseParse (bibleVerseDisplay v) = some v)
    ∧ (∀ (s : List Char) (r : BibleVerseRange), bibleVerseRangeParse s = some r →
        numberOfChapters r.book ≠ 1
          ∨ (r.range.rstart.chapter = 1 ∧ r.range.rend.chapter = 1) →
        bibleVerseRangeParse (bibleVerseRangeDisplay r) = some r) := by
  constructor
  · intro s v h
    unfold bibleVerseParse at h
    have hok := except_toOption_some h
    obtain ⟨h1, h2⟩ := bibleVerseFromStr_ok hok
    exact bibleVerse_display_parse v h1 h2
  · intro s r h hcond
    unfold bibleVerseRangeParse at h
    have hok := except_toOption_some h
    obtain ⟨b, ⟨⟨c1, v1⟩, ⟨c2, v2⟩⟩⟩ := r
    obtain ⟨hle, b1, b2, b3, b4⟩ := bibleVerseRangeFromStr_ok hok
    exact bibleVerseRange_display_parse b c1 v1 c2 v2 b1 b2 b3 b4 hle hcond

/-- C3 witness: the amended round trip at the concrete parsed inputs
`"Ge 1:1"` (verse) and `"Ge 1:1-10"` (range). -/
theorem C3_roundtrip_amended_witness :
    bibleVerseParse (bibleVerseDisplay ⟨⟨0, by omega⟩, 1, 1⟩)
      = some ⟨⟨0, by omega⟩, 1, 1⟩
    ∧ bibleVerseRangeParse
        (bibleVerseRangeDisplay ⟨⟨0, by omega⟩, ⟨1, 1⟩, ⟨1, 10⟩⟩)
      = some ⟨⟨0, by omega⟩, ⟨1, 1⟩, ⟨1, 10⟩⟩ :=
  ⟨C3_roundtrip_amended.1 "Ge 1:1".data _ (by decide),
   C3_roundtrip_amended.2 "Ge 1:1-10".data _ (by decide) (by decide)⟩

/-- C4: whenever the start side of a range token is a bare `u8`
number and the end side parses with an explicit chapter, the range
parser fails with the `InvalidFormat` "Chapter specified at end only"
error, and `BibleVerseRange` parsing of any book abbreviation followed
by such a token returns `None`. -/
theorem C4_chapter_at_end_only :
    ∀ (st en : List Char) (n : Nat) (cv : ChapterAndVerse),
      u8FromStr st = some n →
      chapterAndVerseOrVerseFromStr en = .ok (.both cv) →
      chapterAndVerseRangeFromStr (st ++ '-' :: en)
        = .error (.invalidFormat "Chapter specified at end only")
      ∧ ∀ b : BibleBook,
          bibleVerseRangeParse ((bookAbbrev b).data ++ ' ' :: (st ++ '-' :: en))
            = none := by
  intro st en n cv hst hen
  have hdash : '-' ∉ st := u8FromStr_not_mem '-' hst (by decide) (by decide)
  have hcolon : ':' ∉ st := u8FromStr_not_mem ':' hst (by decide) (by decide)
  have hstcvv : chapterAndVerseOrVerseFromStr st = .ok (.justVerse n) := by
    unfold chapterAndVerseOrVerseFromStr
    rw [splitOnFirst_of_not_mem hcolon, hst]
  have hrange : chapterAndVerseRangeFromStr (st ++ '-' :: en)
      = .error (.invalidFormat "Chapter specified at end only") := by
    unfold chapterAndVerseRangeFromStr
    rw [splitOnFirst_append _ hdash]
    simp only [hstcvv, hen]
  refine ⟨hrange, fun b => ?_⟩
  unfold bibleVerseRangeParse
  rw [bibleVerseRangeFromStr_build, hrange]
  rfl

/-- C4 witness: the scenario `"1-2:2"`, in the Genesis book context. -/
theorem C4_chapter_at_end_only_witness :
    chapterAndVerseRangeFromStr "1-2:2".data
      = .error (.invalidFormat "Chapter specified at end only")
    ∧ bibleVerseRangeParse "Ge 1-2:2".data = none := by
  have h := C4_chapter_at_end_only "1".data "2:2".data 1 ⟨2, 2⟩
    (by decide) (by decide)
  exact ⟨h.1, h.2 ⟨0, by omega⟩⟩

/-- C5: `"20:1-5"` parses to the full range 20:1..=20:5, `"1-5"` to
the implicit range 1:1..=1:5; and in general, whenever the start side
parses with an explicit chapter and the end side is a bare `u8`
number, the end endpoint inherits the start's chapter. -/
theorem C5_endpoint_completion :
    chapterAndVerseRangeParse "20:1-5".data = some (.full ⟨⟨20, 1⟩, ⟨20, 5⟩⟩)
    ∧ chapterAndVerseRangeParse "1-5".data = some (.implicit ⟨⟨1, 1⟩, ⟨1, 5⟩⟩)
    ∧ ∀ (st en : List Char) (cv : ChapterAndVerse) (v : Nat),
        chapterAndVerseOrVerseFromStr st = .ok (.both cv) →
        u8FromStr en = some v →
        chapterAndVerseRangeFromStr (st ++ '-' :: en)
          = .ok ⟨cv, ⟨cv.chapter, v⟩⟩ := by
  refine ⟨by decide, by decide, ?_⟩
  intro st en cv v hst hen
  obtain ⟨_, _, hnd, _⟩ := cvvFromStr_ok_both hst
  have hcolon : ':' ∉ en := u8FromStr_not_mem ':' hen (by decide) (by decide)
  have hencvv : chapterAndVerseOrVerseFromStr en = .ok (.justVerse v) := by
    unfold chapterAndVerseOrVerseFromStr
    rw [splitOnFirst_of_not_mem hcolon, hen]
  unfold chapterAndVerseRangeFromStr
  rw [splitOnFirst_append _ hnd]
  simp only [hst, hencvv]

/-- C5 witness: chapter inheritance at the concrete token
`"20:1-5"`. -/
theorem C5_endpoint_completion_witness :
    chapterAndVerseRangeFromStr ("20:1".data ++ '-' :: "5".data)
      = .ok ⟨⟨20, 1⟩, ⟨20, 5⟩⟩ :=
  C5_endpoint_completion.2.2 "20:1".data "5".data ⟨20, 1⟩ 5
    (by decide) (by decide)

/-- C6: `BibleChapter::new` succeeds exactly for chapters in
`1..=number_of_chapters`, and any value it produces is exactly the
requested book/chapter pair (so no out-of-range chapter value is ever
constructed). -/
theorem C6_chapter_constructor (b : BibleBook) (n : Nat) (hn : n ≤ 255) :
    ((∃ c, bibleChapterNew b n = some c) ↔ 1 ≤ n ∧ n ≤ numberOfChapters b)
    ∧ ∀ c, bibleChapterNew b n = some c → c = ⟨b, n⟩ := by
  constructor
  · constructor
    · rintro ⟨c, hc⟩
      unfold bibleChapterNew at hc
      dsimp only at hc
      split at hc
      · rename_i hv
        unfold bibleChapterIsValid at hv
        dsimp only at hv
        simpa using hv
      · exact Option.noConfusion hc
    · intro hrange
      refine ⟨⟨b, n⟩, ?_⟩
      unfold bibleChapterNew
      dsimp only
      rw [if_pos ?_]
      unfold bibleChapterIsValid
      dsimp only
      simpa using hrange
  · intro c hc
    unfold bibleChapterNew at hc
    dsimp only at hc
    split at hc
    · injection hc with hc
      exact hc.symm
    · exact Option.noConfusion hc

/-- C6 witness: the constructor at Genesis with chapters 1, 50 (valid)
and 0, 51 (invalid). -/
theorem C6_chapter_constructor_witness :
    ((∃ c, bibleChapterNew ⟨0, by omega⟩ 1 = some c)
      ↔ 1 ≤ 1 ∧ 1 ≤ numberOfChapters ⟨0, by omega⟩)
    ∧ ((∃ c, bibleChapterNew ⟨0, by omega⟩ 51 = some c)
      ↔ 1 ≤ 51 ∧ 51 ≤ numberOfChapters ⟨0, by omega⟩) :=
  ⟨(C6_chapter_constructor ⟨0, by omega⟩ 1 (by decide)).1,
   (C6_chapter_constructor ⟨0, by omega⟩ 51 (by decide)).1⟩

/-- C7: `BibleChapter::from_str` behavior.  With a recognized
abbreviation and no space, the result is chapter 1 for single-chapter
books and a `NoChapterSpecified` failure otherwise.  With a space, a
remainder parsing to 0 fails with the distinct "chapters start at 1"
out-of-range reason, a too-large remainder fails with a reason naming
the book's chapter count, a non-numeric remainder is a `NotANumber`
failure, and otherwise the parsed chapter is returned.  Concretely,
`"Ge 1"` yields Genesis chapter 1 and `"Ge 1:4"` fails as
not-a-number. -/
theorem C7_chapter_from_str :
    (∀ (s : List Char) (idx : Nat), parseBookAbbrev s = some idx →
      splitOnFirst ' ' s = none →
      bibleChapterFromStr s
        = if numberOfChapters (bookFromIndexD idx) = 1
          then .ok ⟨bookFromIndexD idx, 1⟩
          else .error (.noChapterSpecified (String.mk s)))
    ∧ (∀ (s : List Char) (idx : Nat) (a r : List Char),
        parseBookAbbrev s = some idx → splitOnFirst ' ' s = some (a, r) →
        (u8FromStr r = none →
          bibleChapterFromStr s = .error (.notANumber (String.mk r)))
        ∧ (u8FromStr r = some 0 →
          bibleChapterFromStr s
            = .error (.chapterOutOfRange "0. Chapter numbers start at 1"))
        ∧ (∀ c, u8FromStr r = some c →
            numberOfChapters (bookFromIndexD idx) < c →
          bibleChapterFromStr s = .error (.chapterOutOfRange
            (bookName (bookFromIndexD idx) ++ " has "
              ++ Nat.repr (numberOfChapters (bookFromIndexD idx))
              ++ " chapters. " ++ Nat.repr c ++ " is too high.")))
        ∧ (∀ c, u8FromStr r = some c → 1 ≤ c →
            c ≤ numberOfChapters (bookFromIndexD idx) →
          bibleChapterFromStr s = .ok ⟨bookFromIndexD idx, c⟩))
    ∧ bibleChapterParse "Ge 1".data = some ⟨⟨0, by omega⟩, 1⟩
    ∧ bibleChapterParse "Ge 1:4".data = none
    ∧ bibleChapterFromStr "Ge 1:4".data = .error (.notANumber "1:4") := by
  refine ⟨?_, ?_, by decide, by decide, by decide⟩
  · intro s idx h1 h2
    unfold bibleChapterFromStr
    rw [h1]
    dsimp only
    rw [h2]
  · intro s idx a r h1 h2
    refine ⟨?_, ?_, ?_, ?_⟩
    · intro h3
      unfold bibleChapterFromStr
      rw [h1]
      dsimp only
      rw [h2]
      dsimp only
      rw [h3]
    · intro h3
      unfold bibleChapterFromStr
      rw [h1]
      dsimp only
      rw [h2]
      dsimp only
      rw [h3]
      dsimp only
      rw [if_pos rfl]
    · intro c h3 h4
      unfold bibleChapterFromStr
      rw [h1]
      dsimp only
      rw [h2]
      dsimp only
      rw [h3]
      dsimp only
      rw [if_neg (by omega), if_pos h4]
    · intro c h3 h4 h5
      unfold bibleChapterFromStr
      rw [h1]
      dsimp only
      rw [h2]
      dsimp only
      rw [h3]
      dsimp only
      rw [if_neg (by omega), if_neg (by omega)]

/-- C7 witness: the no-space case at `"3Jn"` (single-chapter book),
the zero, too-large, and valid chapter cases at `"Ge 0"`, `"Ge 51"`,
`"Ge 3"`. -/
theorem C7_chapter_from_str_witness :
    bibleChapterFromStr "3Jn".data = .ok ⟨⟨63, by omega⟩, 1⟩
    ∧ bibleChapterFromStr "Ge 0".data
      = .error (.chapterOutOfRange "0. Chapter numbers start at 1")
    ∧ bibleChapterFromStr "Ge 51".data
      = .error (.chapterOutOfRange "Genesis has 50 chapters. 51 is too high.")
    ∧ bibleChapterFromStr "Ge 3".data = .ok ⟨⟨0, by omega⟩, 3⟩ := by
  refine ⟨?_, ?_, ?_, ?_⟩
  · exact (C7_chapter_from_str.1 "3Jn".data 63 (by decide) (by decide)).trans
      (by decide)
  · exact (C7_chapter_from_str.2.1 "Ge 0".data 0 "Ge".data "0".data
      (by decide) (by decide)).2.1 (by decide)
  · exact ((C7_chapter_from_str.2.1 "Ge 51".data 0 "Ge".data "51".data
      (by decide) (by decide)).2.2.1 51 (by decide) (by decide)).trans
      (by decide)
  · exact ((C7_chapter_from_str.2.1 "Ge 3".data 0 "Ge".data "3".data
      (by decide) (by decide)).2.2.2 3 (by decide) (by decide) (by decide)).trans
      (by decide)

/-- C8: `BibleVerseRange` parsing accepts an implicit range only for
single-chapter books (failing with the chapter-omission error
otherwise), rejects empty full ranges and empty implicit ranges for
single-chapter books with the "end before start" invalid-range error,
and consequently every successfully parsed range satisfies
start ≤ end in the chapter-major, verse-minor order. -/
theorem C8_range_validation :
    (∀ (t : List Char) (b : BibleBook) (cvr : ChapterAndVerseRange),
      chapterAndVerseRangeFromStr t = .error (.implicitRange cvr) →
      numberOfChapters b ≠ 1 →
      bibleVerseRangeFromStr ((bookAbbrev b).data ++ ' ' :: t)
        = .error (.noChapterSpecified
            "Chapter can only be ommited for single-chapter books"))
    ∧ (∀ (t : List Char) (b : BibleBook) (cvr : ChapterAndVerseRange),
      chapterAndVerseRangeFromStr t = .ok cvr → rangeIsEmpty cvr = true →
      bibleVerseRangeFromStr ((bookAbbrev b).data ++ ' ' :: t)
        = .error (.invalidRange "End verse before start"))
    ∧ (∀ (t : List Char) (b : BibleBook) (cvr : ChapterAndVerseRange),
      chapterAndVerseRangeFromStr t = .error (.implicitRange cvr) →
      numberOfChapters b = 1 → rangeIsEmpty cvr = true →
      bibleVerseRangeFromStr ((bookAbbrev b).data ++ ' ' :: t)
        = .error (.invalidRange "End verse before start"))
    ∧ (∀ (s : List Char) (r : BibleVerseRange),
      bibleVerseRangeParse s = some r → cvLe r.range.rstart r.range.rend) := by
  refine ⟨?_, ?_, ?_, ?_⟩
  · intro t b cvr h hb
    rw [bibleVerseRangeFromStr_build, h]
    dsimp only
    rw [if_neg hb]
  · intro t b cvr h he
    rw [bibleVerseRangeFromStr_build, h]
    dsimp only
    rw [if_pos he]
  · intro t b cvr h hb he
    rw [bibleVerseRangeFromStr_build, h]
    dsimp only
    rw [if_pos hb, if_pos he]
  · intro s r h
    unfold bibleVerseRangeParse at h
    exact (bibleVerseRangeFromStr_ok (except_toOption_some h)).1

/-- C8 witness: the implicit range `"1-5"` rejected for multi-chapter
Genesis, the empty full range `"10:10-9"` and the empty implicit range
`"5-2"` (for single-chapter Obadiah) rejected as invalid, and the
ordering consequence at the parsed `"Ge 1:1-10"`. -/
theorem C8_range_validation_witness :
    bibleVerseRangeFromStr "Ge 1-5".data
      = .error (.noChapterSpecified
          "Chapter can only be ommited for single-chapter books")
    ∧ bibleVerseRangeFromStr "Ge 10:10-9".data
      = .error (.invalidRange "End verse before start")
    ∧ bibleVerseRangeFromStr "Ob 5-2".data
      = .error (.invalidRange "End verse before start")
    ∧ cvLe (⟨1, 1⟩ : ChapterAndVerse) ⟨1, 10⟩ :=
  ⟨C8_range_validation.1 "1-5".data ⟨0, by omega⟩ ⟨⟨1, 1⟩, ⟨1, 5⟩⟩
     (by decide) (by decide),
   C8_range_validation.2.1 "10:10-9".data ⟨0, by omega⟩ ⟨⟨10, 10⟩, ⟨10, 9⟩⟩
     (by decide) (by decide),
   C8_range_validation.2.2.1 "5-2".data ⟨30, by omega⟩ ⟨⟨1, 5⟩, ⟨1, 2⟩⟩
     (by decide) (by decide) (by decide),
   C8_range_validation.2.2.2 "Ge 1:1-10".data
     ⟨⟨0, by omega⟩, ⟨1, 1⟩, ⟨1, 10⟩⟩ (by decide)⟩

/-- C9 counterexample: the claim's example token `"1:1-1:999"` is NOT
structurally accepted — 999 exceeds the `u8` verse type, so the parse
fails with a `NotANumber` error rather than producing a range. -/
theorem C9_counterexample :
    chapterAndVerseRangeParse "1:1-1:999".data = none
    ∧ chapterAndVerseRangeFromStr "1:1-1:999".data
      = .error (.notANumber "999") := by
  decide

/-- C9 (amended): the range parser performs no verse-count validation
— every verse number representable in `u8` is structurally accepted
(e.g. `"1:1-1:255"`, far beyond any real chapter's verse count);
`"1:1-1:999"` is rejected only because 999 overflows the `u8` verse
type, not because of any verse-count table. -/
theorem C9_no_verse_count_validation :
    (∀ v : Nat, v ≤ 255 →
      chapterAndVerseRangeFromStr (cvDisplay ⟨1, 1⟩ ++ '-' :: cvDisplay ⟨1, v⟩)
        = .ok ⟨⟨1, 1⟩, ⟨1, v⟩⟩)
    ∧ chapterAndVerseRangeFromStr "1:1-1:255".data = .ok ⟨⟨1, 1⟩, ⟨1, 255⟩⟩ := by
  refine ⟨?_, by decide⟩
  intro v hv
  exact cvRange_display_two_chapters (by omega) (by omega) (by omega) hv

/-- C9 witness: the unvalidated verse bound at the concrete maximal
`u8` verse 255. -/
theorem C9_no_verse_count_validation_witness :
    chapterAndVerseRangeFromStr (cvDisplay ⟨1, 1⟩ ++ '-' :: cvDisplay ⟨1, 255⟩)
      = .ok ⟨⟨1, 1⟩, ⟨1, 255⟩⟩ :=
  C9_no_verse_count_validation.1 255 (by decide)

/-- C10: every `BibleBook` obtainable from the public constructors has
`book_number` in `1..=66` and index in `0..=65`: the recognizer only
ever returns indices below 66, `from_book_number` succeeds only on
`1..=66` (so the unchecked `u8`-to-enum conversion inside it is
reached only for checked values), `from_index` succeeds only on
`0..=65`, and the index is within the bounds of all three 66-element
tables used by `name`, `abbrev` and `number_of_chapters`. -/
theorem C10_constructor_safety :
    (∀ (s : List Char) (i : Nat), parseBookAbbrev s = some i → i < 66)
    ∧ (∀ (n : Nat) (b : BibleBook), bibleBookFromBookNumber n = .ok b →
        (1 ≤ n ∧ n ≤ 66) ∧ bookNumber b = n)
    ∧ (∀ (i : Nat) (b : BibleBook), bibleBookFromIndex i = .ok b →
        i ≤ 65 ∧ bookIndex b = i)
    ∧ (∀ (s : List Char) (b : BibleBook), bibleBookParseAbbrev s = some b →
        1 ≤ bookNumber b ∧ bookNumber b ≤ 66 ∧ bookIndex b ≤ 65)
    ∧ (∀ (s : List Char) (b : BibleBook), bibleBookParseName s = some b →
        1 ≤ bookNumber b ∧ bookNumber b ≤ 66 ∧ bookIndex b ≤ 65)
    ∧ (∀ b ∈ bibleBookIter,
        1 ≤ bookNumber b ∧ bookNumber b ≤ 66 ∧ bookIndex b ≤ 65)
    ∧ (∀ b : BibleBook, bookIndex b < BOOK_NAMES.length
        ∧ bookIndex b < BOOK_ABBREVS.length
        ∧ bookIndex b < BOOK_CHAPTERS.length) := by
  have hnum : ∀ (n : Nat) (b : BibleBook), bibleBookFromBookNumber n = .ok b →
      (1 ≤ n ∧ n ≤ 66) ∧ bookNumber b = n := by
    intro n b h
    unfold bibleBookFromBookNumber at h
    split at h
    · exact Except.noConfusion h
    · split at h
      · rename_i hz hle
        injection h with h
        subst h
        unfold bookNumber
        dsimp only
        constructor
        · omega
        · omega
      · exact Except.noConfusion h
  have hidx : ∀ (i : Nat) (b : BibleBook), bibleBookFromIndex i = .ok b →
      i ≤ 65 ∧ bookIndex b = i := by
    intro i b h
    unfold bibleBookFromIndex at h
    split at h
    · exact Except.noConfusion h
    · split at h
      · exact Except.noConfusion h
      · rename_i h66 h67
        obtain ⟨⟨_, hle⟩, hbn⟩ := hnum (i + 1) b h
        unfold bookIndex
        omega
  have hfin : ∀ b : BibleBook,
      1 ≤ bookNumber b ∧ bookNumber b ≤ 66 ∧ bookIndex b ≤ 65 := by
    intro b
    have := b.isLt
    unfold bookIndex bookNumber
    omega
  refine ⟨fun s i h => parseBookAbbrev_lt h, hnum, hidx,
    fun s b _ => hfin b, fun s b _ => hfin b, fun b _ => hfin b, ?_⟩
  intro b
  have := b.isLt
  simp only [bookIndex, bookNumber]
  rw [show BOOK_NAMES.length = 66 from rfl,
    show BOOK_ABBREVS.length = 66 from rfl,
    show BOOK_CHAPTERS.length = 66 from rfl]
  omega

/-- C10 witness: the recognizer bound at `"Ge"` and the constructor
guard at book number 1. -/
theorem C10_constructor_safety_witness :
    (0 : Nat) < 66
    ∧ ((1 ≤ 1 ∧ 1 ≤ 66) ∧ bookNumber ⟨0, by omega⟩ = 1) :=
  ⟨C10_constructor_safety.1 "Ge".data 0 (by decide),
   C10_constructor_safety.2.1 1 ⟨0, by omega⟩ (by decide)⟩

end BibleData
